import Mathlib

/-
Verification development for the hotspot knowledge-base service
(redis-stack backed vector catalog: src/dbs/redis_stack/curd.py and
src/router/hotspot/handler.py).

Modelling conventions:
* Redis is modelled as an explicit state record `RS` (JSON documents,
  plain string keys written with SETEX, the set of FT indexes, and the
  stats-cache keyspace given its own field so that cached payloads can be
  modelled structurally).
* Python floats are modelled as exact fixed-point integers: the integer
  `x : Fx` denotes the real number `x / 10^8`.  All float arithmetic the
  code performs (1 - distance, round(_, 4), comparisons) is exact at this
  resolution; Python's `round` half-even tie rule is modelled exactly.
* Cosine distances are computed inside redis, so the search model takes
  the distance function as an oracle parameter.
* Per-key write success of JSON.SET (transport level) is an oracle
  `writeOk : String → Bool`, identical for pipelined and single writes.
* Python dictionaries are association lists preserving insertion order;
  Python truthiness of the values involved is modelled explicitly.
-/

/-! ### Fixed-point numbers and Python-style string helpers -/

/-- Fixed-point real: `x : Fx` denotes `x / 10^8`. -/
abbrev Fx := Int

/-- Fixed-point representation of 1.0. -/
def fxOne : Fx := 100000000

/-- Half-even (banker's) rounding of `x / 10000` to the nearest integer,
matching Python `round` on the exact value. -/
def rhe4 (x : Int) : Int :=
  if x % 10000 < 5000 then x / 10000
  else if 5000 < x % 10000 then x / 10000 + 1
  else if (x / 10000) % 2 = 0 then x / 10000
  else x / 10000 + 1

/-- `round(v, 4)` on a fixed-point value: round to a multiple of `10^-4`. -/
def round4 (x : Fx) : Fx := 10000 * rhe4 x

/-- Python `s.startswith(p)` on code points (also the redis key-prefix match). -/
def charsLead : List Char → List Char → Bool
  | [], _ => true
  | _ :: _, [] => false
  | a :: as, b :: bs => a == b && charsLead as bs

/-- `s.startswith(p)` / redis prefix match of key `s` against `p`. -/
def strStarts (s p : String) : Bool := charsLead p.data s.data

/-- Python `<` on strings (lexicographic on code points). -/
def charsLt : List Char → List Char → Bool
  | [], [] => false
  | [], _ :: _ => true
  | _ :: _, [] => false
  | a :: as, b :: bs => if a < b then true else if b < a then false else charsLt as bs

/-- Python string comparison `a < b`. -/
def pyStrLt (a b : String) : Bool := charsLt a.data b.data

/-- Whitespace characters stripped by Python `str.strip()`. -/
def pyIsWs (c : Char) : Bool :=
  c == ' ' || c == '\t' || c == '\n' || c == '\r' || c == '\x0b' || c == '\x0c'

/-- Python `str.strip()`. -/
def pyStrip (s : String) : String :=
  String.mk (((s.data.dropWhile pyIsWs).reverse.dropWhile pyIsWs).reverse)

/-- Truthiness of `text and text.strip()`: nonempty and not whitespace-only. -/
def pyNonBlank (t : String) : Bool := !t.data.isEmpty && !(pyStrip t).data.isEmpty

/-! ### JSON values and documents -/

/-- The JSON value universe actually used by the documents of this service:
strings, numbers (fixed-point floats), lists of strings (`related_links`)
and float vectors (`query_vector`). -/
inductive JVal where
  | str (s : String)
  | num (x : Fx)
  | strList (l : List String)
  | vec (v : List Fx)
deriving DecidableEq, Repr

/-- A JSON document / Python dict: insertion-ordered association list. -/
abbrev JDoc := List (String × JVal)

/-- `d.get(k)` / `d[k]` lookup. -/
def dGet : JDoc → String → Option JVal
  | [], _ => none
  | (k1, v) :: rest, k => if k1 = k then some v else dGet rest k

/-- `k in d`. -/
def dHasKey (d : JDoc) (k : String) : Bool := (dGet d k).isSome

/-- Python dict assignment `d[k] = v`: replace in place, else append. -/
def dSet : JDoc → String → JVal → JDoc
  | [], k, v => [(k, v)]
  | (k1, v1) :: rest, k, v =>
    if k1 = k then (k1, v) :: rest else (k1, v1) :: dSet rest k v

/-- `required_keys.issubset(data.keys())` for
`{"query_vector", "category", "question", "question_id"}`. -/
def hasRequiredKeys (d : JDoc) : Bool :=
  dHasKey d "query_vector" && dHasKey d "category" &&
  dHasKey d "question" && dHasKey d "question_id"

/-- Python truthiness of a JSON value. -/
def pyTruthy : JVal → Bool
  | .str s => !s.data.isEmpty
  | .num x => x != 0
  | .strList l => !l.isEmpty
  | .vec v => !v.isEmpty

/-- Truthiness of `client.json().get(key)`'s result (None or a dict). -/
def pyTruthyDoc : Option JDoc → Bool
  | none => false
  | some d => !d.isEmpty

/-- Python `f"{v}"` for a JSON value.  Only the string case is exercised by
well-formed documents; the remaining cases use `toString` as the stand-in
for Python's repr. -/
def pyStr : JVal → String
  | .str s => s
  | .num x => toString x
  | .strList l => toString l
  | .vec w => toString w

/-- Python list `<` (lexicographic) on lists of strings. -/
def ltListStr : List String → List String → Bool
  | [], [] => false
  | [], _ :: _ => true
  | _ :: _, [] => false
  | a :: as, b :: bs =>
    if charsLt a.data b.data then true
    else if charsLt b.data a.data then false
    else ltListStr as bs

/-- Python list `<` (lexicographic) on lists of numbers. -/
def ltListFx : List Fx → List Fx → Bool
  | [], [] => false
  | [], _ :: _ => true
  | _ :: _, [] => false
  | a :: as, b :: bs =>
    if a < b then true else if b < a then false else ltListFx as bs

/-- Python `a > b` on JSON values: `some r` for a successful comparison,
`none` for the `TypeError` raised on cross-type order comparisons. -/
def pyGt : JVal → JVal → Option Bool
  | .str a, .str b => some (charsLt b.data a.data)
  | .num a, .num b => some (decide (b < a))
  | .strList a, .strList b => some (ltListStr b a)
  | .vec a, .vec b => some (ltListFx b a)
  | _, _ => none

/-! ### Store state -/

/-- Computed group statistics (`_calculate_stats` success payload).
`categories` is the Python dict built by the loop, so its keys are the
(hashable) category values. -/
structure Stats where
  total_questions : ℕ
  categories : List (JVal × ℕ)
  index_status : String
  last_updated : Option JVal
  cache_time : String
deriving DecidableEq, Repr

/-- Result of a stats computation: the stats dict or the `{"error": msg}`
dict produced when the computation raises. -/
inductive StatsResult where
  | stats (st : Stats)
  | error (msg : String)
deriving DecidableEq, Repr

/-- Model of the string cached under the stats key: `json.dumps` output of
a stats result (which always loads back), or an undecodable payload. -/
inductive SerStats where
  | ser (r : StatsResult)
  | corrupt
deriving DecidableEq, Repr

/-- Redis state: JSON documents, SETEX string keys (value, ttl), the
stats-cache keyspace, and the set of existing FT indexes. -/
structure RS where
  docs : List (String × JDoc)
  kv : List (String × String × ℕ)
  statsKv : List (String × SerStats × ℕ)
  ftIndexes : List String
deriving DecidableEq, Repr

/-- Association-list lookup (redis GET / key lookup). -/
def alGet {β : Type} : List (String × β) → String → Option β
  | [], _ => none
  | (k1, v) :: rest, k => if k1 = k then some v else alGet rest k

/-- Association-list upsert (redis SET / SETEX). -/
def alSet {β : Type} : List (String × β) → String → β → List (String × β)
  | [], k, v => [(k, v)]
  | (k1, v1) :: rest, k, v =>
    if k1 = k then (k1, v) :: rest else (k1, v1) :: alSet rest k v

/-- Association-list delete (redis DEL). -/
def alDel {β : Type} (l : List (String × β)) (k : String) : List (String × β) :=
  l.filter (fun kv => decide (kv.1 ≠ k))

/-- CACHE_TTL = 300 seconds. -/
def CACHE_TTL : ℕ := 300

/-- STATS_CACHE_KEY = "hotspot:stats:{group_id}". -/
def statsCacheKey (gid : String) : String := "hotspot:stats:" ++ gid

/-- INDEX_STATUS_CACHE key for a group. -/
def indexStatusKey (gid : String) : String := "hotspot:index_status:" ++ gid

/-- Configured embedding dimension (bge-m3, n_dim = 1024). -/
def nDim : ℕ := 1024

/-- An embedding vector. -/
abbrev Vec := List Fx

/-- The zero vector `[0.0] * 1024`. -/
def zeroVec : Vec := List.replicate nDim 0

/-! ### curd.py: index management and single-document operations -/

/-- `create_hotspot_index(group_id, force_recreate)`.
If the index-active marker is cached (and not forcing), skip; otherwise
drop any old index (errors swallowed), create the new one, and cache the
"active" marker with the TTL.  The happy path always returns `True`;
transport failures (the `except` returning `False`) are not modelled. -/
def create_hotspot_index (gid : String) (force : Bool) (s : RS) : Bool × RS :=
  (true,
    if !force && decide ((alGet s.kv (indexStatusKey gid)).map (fun p => p.1) = some "active") then
      s
    else
      { s with
        ftIndexes := gid :: s.ftIndexes.filter (fun g => decide (g ≠ gid)),
        kv := alSet s.kv (indexStatusKey gid) ("active", CACHE_TTL) })

/-- `check_index_exists(group_id)`: FT.INFO succeeds iff the index exists. -/
def check_index_exists (gid : String) (s : RS) : Bool := decide (gid ∈ s.ftIndexes)

/-- `get_hotspot_question(group_id, question_id)`: JSON.GET at the
concatenated key, `none` when absent. -/
def get_hotspot_question (gid qid : String) (s : RS) : Option JDoc :=
  alGet s.docs (gid ++ qid)

/-- `store_hotspot_question(question_id, data, group_id)`: validate the
required keys, then JSON.SET at `f"{group_id}{question_id}"`.  A raising
JSON.SET (per-key oracle `writeOk`) is caught and yields `False` with no
write. -/
def store_hotspot_question (writeOk : String → Bool) (qid : String) (data : JDoc)
    (gid : String) (s : RS) : Bool × RS :=
  if !hasRequiredKeys data then (false, s)
  else if writeOk (gid ++ qid) then
    (true, { s with docs := alSet s.docs (gid ++ qid) data })
  else (false, s)

/-- `delete_hotspot_question(group_id, question_id)`: DEL the key; when a
key was deleted, also DEL the group's stats-cache entry. -/
def delete_hotspot_question (gid qid : String) (s : RS) : Bool × RS :=
  match alGet s.docs (gid ++ qid) with
  | some _ =>
    (true,
      { s with
        docs := alDel s.docs (gid ++ qid),
        statsKv := alDel s.statsKv (statsCacheKey gid) })
  | none => (false, s)

/-- Elements at offsets 0, 2, 4, … of a list.  `FT.SEARCH ... RETURN 0`
replies with the flat array `[count, key1, key2, ...]`, and the source
walks it with `range(1, len(result), 2)`, so it only collects every other
matching key. -/
def everyOther {α : Type} : List α → List α
  | [] => []
  | [a] => [a]
  | a :: _ :: rest => a :: everyOther rest

/-- `delete_questions_by_category(group_id, category)`: find the keys of
the group's documents with the matching category tag, pipeline-delete the
collected keys, and (when any were collected) DEL the group's stats-cache
entry.  FT.SEARCH on a missing index raises, which the `except` maps
to 0. -/
def delete_questions_by_category (gid category : String) (s : RS) : ℕ × RS :=
  if !check_index_exists gid s then (0, s)
  else
    let ks := (s.docs.filter (fun kd =>
      strStarts kd.1 gid && decide (dGet kd.2 "category" = some (.str category)))).map
      (fun kd => kd.1)
    if ks.isEmpty then (0, s)
    else
      let keys_to_delete := everyOther ks
      (keys_to_delete.length,
        { s with
          docs := keys_to_delete.foldl (fun ds k => alDel ds k) s.docs,
          statsKv := alDel s.statsKv (statsCacheKey gid) })

/-! ### curd.py: batched upsert and its sequential fallback -/

/-- A failure record `{"index": i, "question_id": qid, "reason": r}`. -/
structure FailedItem where
  index : ℕ
  question_id : JVal
  reason : String
deriving DecidableEq, Repr

/-- `data.get("question_id", f"unknown_{i}")`. -/
def qidOrUnknown (d : JDoc) (i : ℕ) : JVal :=
  (dGet d "question_id").getD (.str ("unknown_" ++ toString i))

/-- Validation loop of `store_hotspot_questions_batch`: split the items
(enumerated from `i`) into the valid ones (kept with their original index)
and the per-item validation failures, in input order. -/
def batchValidate : ℕ → List JDoc → List (ℕ × JDoc) × List FailedItem
  | _, [] => ([], [])
  | i, d :: rest =>
    let (vs, fs) := batchValidate (i + 1) rest
    if hasRequiredKeys d then ((i, d) :: vs, fs)
    else (vs, ⟨i, qidOrUnknown d i, "数据格式不符合要求"⟩ :: fs)

/-- Pipeline write of the valid items: each JSON.SET result is truthy iff
the per-key write succeeds; failures are recorded in order. -/
def writeValids (writeOk : String → Bool) (gid : String) :
    List (ℕ × JDoc) → RS → ℕ × List FailedItem × RS
  | [], s => (0, [], s)
  | (i, d) :: rest, s =>
    if writeOk (gid ++ pyStr (qidOrUnknown d i)) then
      let p := writeValids writeOk gid rest
        { s with docs := alSet s.docs (gid ++ pyStr (qidOrUnknown d i)) d }
      (p.1 + 1, p.2.1, p.2.2)
    else
      let p := writeValids writeOk gid rest s
      (p.1, ⟨i, qidOrUnknown d i, "Redis存储失败"⟩ :: p.2.1, p.2.2)

/-- The try-body of `store_hotspot_questions_batch` (the batched round
trip succeeding): validate every item, pipeline-write the valid ones, and
report (success count, failures in order). -/
def batchedStorePath (writeOk : String → Bool) (qd : List JDoc) (gid : String)
    (s : RS) : ℕ × List FailedItem × RS :=
  let v := batchValidate 0 qd
  let w := writeValids writeOk gid v.1 s
  (w.1, v.2 ++ w.2.1, w.2.2)

/-- `_fallback_store_individual` (items enumerated from `i`): submit every
item through `store_hotspot_question`; a missing `question_id` raises
`KeyError('question_id')` which is caught as a per-item failure. -/
def _fallback_store_individual (writeOk : String → Bool) (gid : String) :
    ℕ → List JDoc → RS → ℕ × List FailedItem × RS
  | _, [], s => (0, [], s)
  | i, d :: rest, s =>
    match dGet d "question_id" with
    | none =>
      let p := _fallback_store_individual writeOk gid (i + 1) rest s
      (p.1, ⟨i, .str ("unknown_" ++ toString i), "'question_id'"⟩ :: p.2.1, p.2.2)
    | some qv =>
      let r := store_hotspot_question writeOk (pyStr qv) d gid s
      let p := _fallback_store_individual writeOk gid (i + 1) rest r.2
      if r.1 then (p.1 + 1, p.2.1, p.2.2)
      else (p.1, ⟨i, qv, "单个存储失败"⟩ :: p.2.1, p.2.2)

/-- `store_hotspot_questions_batch(questions_data, group_id)`: empty input
short-circuits; otherwise the batched path runs, falling back to the
sequential path when the batched round trip itself raises (transport
oracle `batchFails`).  Returns `(success_count, failure_count,
failure_details)` and the resulting store. -/
def store_hotspot_questions_batch (batchFails : Bool) (writeOk : String → Bool)
    (qd : List JDoc) (gid : String) (s : RS) : (ℕ × ℕ × List FailedItem) × RS :=
  if qd.isEmpty then ((0, 0, []), s)
  else if batchFails then
    let p := _fallback_store_individual writeOk gid 0 qd s
    ((p.1, p.2.1.length, p.2.1), p.2.2)
  else
    let p := batchedStorePath writeOk qd gid s
    ((p.1, p.2.1.length, p.2.1), p.2.2)

/-! ### curd.py: vector search -/

/-- A parsed search hit: the key, the returned fields, and the similarity
score (present when the reply carried `__vector_score`). -/
structure SearchResult where
  key : String
  fields : List (String × JVal)
  similarity_score : Option Fx
deriving DecidableEq, Repr

/-- `float(field_value)` for the score field.  Redis returns the score as
a decimal numeral, modelled as `.num`; other shapes (which this reply
never carries) fall back to 0. -/
def jvalToFx : JVal → Fx
  | .num x => x
  | _ => 0

/-- The field loop of `parse_vector_search_result`: accumulate the
non-score fields in order and turn `__vector_score` into `1 - distance`. -/
def parseFieldsAux : List (String × JVal) → List (String × JVal) → Option Fx →
    List (String × JVal) × Option Fx
  | [], acc, sim => (acc, sim)
  | (n, v) :: rest, acc, sim =>
    if n = "__vector_score" then parseFieldsAux rest acc (some (fxOne - jvalToFx v))
    else parseFieldsAux rest (acc ++ [(n, v)]) sim

/-- One (key, fields) pair of the reply parsed into a search hit; the
similarity score, when found, is rounded to 4 decimals. -/
def parseOneResult (kf : String × List (String × JVal)) : SearchResult :=
  let p := parseFieldsAux kf.2 [] none
  { key := kf.1, fields := p.1, similarity_score := p.2.map round4 }

/-- `parse_vector_search_result`: one result per (key, fields) pair of the
reply. -/
def parse_vector_search_result (raw : List (String × List (String × JVal))) :
    List SearchResult :=
  raw.map parseOneResult

/-- `result.get('similarity_score', 0)`. -/
def simScore (r : SearchResult) : Fx := r.similarity_score.getD 0

/-- Insert into a sorted list (ascending under `le`). -/
def insAsc {α : Type} (le : α → α → Bool) (a : α) : List α → List α
  | [] => [a]
  | b :: bs => if le a b then a :: b :: bs else b :: insAsc le a bs

/-- Sort ascending under `le` (the store's `SORTBY __vector_score`). -/
def sortAsc {α : Type} (le : α → α → Bool) : List α → List α
  | [] => []
  | a :: as => insAsc le a (sortAsc le as)

/-- The seven document fields named by the RETURN clause. -/
def returnFieldNames : List String :=
  ["question_id", "question", "standard_reply", "category", "related_links",
   "created_at", "updated_at"]

/-- Projection of a document to the RETURN fields present in it. -/
def projFields (d : JDoc) : List (String × JVal) :=
  returnFieldNames.filterMap (fun n => (dGet d n).map (fun v => (n, v)))

/-- One raw reply row of the KNN search: the key, the projected document
fields, and the `__vector_score` alias carrying the raw distance. -/
def knnRawItem (kdd : String × JDoc × Fx) : String × List (String × JVal) :=
  (kdd.1, projFields kdd.2.1 ++ [("__vector_score", JVal.num kdd.2.2)])

/-- `vector_search_questions(group_id, query_vector, limit, category,
min_similarity)`.  If the index is missing it is created on the fly.  The
KNN query runs over the group's indexed documents (key prefix match,
optional exact category tag filter, vector field present), sorted
ascending by the store-computed cosine distance (`dist` oracle) and capped
at `limit`; the reply is parsed into similarity scores and, only when
`min_similarity > 0`, filtered by `similarity_score >= min_similarity`. -/
def knnCandidates (dist : Vec → Vec → Fx) (gid : String) (query_vector : Vec)
    (category : Option String) (docs : List (String × JDoc)) :
    List (String × JDoc × Fx) :=
  let inGroup : List (String × JDoc) := docs.filter (fun kd => strStarts kd.1 gid)
  let withCat : List (String × JDoc) := match category with
    | some c => inGroup.filter (fun kd => decide (dGet kd.2 "category" = some (.str c)))
    | none => inGroup
  withCat.filterMap (fun kd =>
    match dGet kd.2 "query_vector" with
    | some (.vec v) => some (kd.1, kd.2, dist v query_vector)
    | _ => none)

/-- The pure KNN computation of `vector_search_questions` over a document
store: candidates sorted ascending by the store-computed distance, capped
at `limit`, parsed into similarity scores, and — only when
`min_similarity > 0` — filtered by `similarity_score >= min_similarity`. -/
def knnSearchResults (dist : Vec → Vec → Fx) (gid : String) (query_vector : Vec)
    (limit : ℕ) (category : Option String) (min_similarity : Fx)
    (docs : List (String × JDoc)) : List SearchResult :=
  let top := (sortAsc (fun a b => decide (a.2.2 ≤ b.2.2))
    (knnCandidates dist gid query_vector category docs)).take limit
  let parsed := parse_vector_search_result (top.map knnRawItem)
  if 0 < min_similarity then
    parsed.filter (fun r => decide (min_similarity ≤ simScore r))
  else parsed

/-- `vector_search_questions(group_id, query_vector, limit, category,
min_similarity)`.  If the index is missing it is created on the fly; the
KNN query then runs over the group's indexed documents. -/
def vector_search_questions (dist : Vec → Vec → Fx) (gid : String)
    (query_vector : Vec) (limit : ℕ) (category : Option String)
    (min_similarity : Fx) (s : RS) : List SearchResult × RS :=
  let s1 : RS := if check_index_exists gid s then s
    else (create_hotspot_index gid false s).2
  (knnSearchResults dist gid query_vector limit category min_similarity s1.docs, s1)

/-! ### curd.py: statistics -/

/-- `categories[category] = categories.get(category, 0) + 1` on the
insertion-ordered dict. -/
def bump : List (JVal × ℕ) → JVal → List (JVal × ℕ)
  | [], k => [(k, 1)]
  | (k1, n) :: rest, k =>
    if k1 = k then (k1, n + 1) :: rest else (k1, n) :: bump rest k

/-- The sentinel bucket `'未分类'` (uncategorized). -/
def uncategorized : JVal := .str "未分类"

/-- Whether a value can be a Python dict key (lists are unhashable). -/
def hashable : JVal → Bool
  | .str _ => true
  | .num _ => true
  | .strList _ => false
  | .vec _ => false

/-- One document's contribution to the stats loop (the try/except body).
The category projection defaults to the sentinel; an unhashable category
raises `TypeError` at the dict lookup, counting the document under the
sentinel and skipping its `updated_at`.  A truthy `updated_at` is compared
with the running latest value; a cross-type comparison raises `TypeError`,
which the handler turns into a second sentinel count for the same
document. -/
def updStep (d : JDoc) (cats1 : List (JVal × ℕ)) (latest : Option JVal) :
    List (JVal × ℕ) × Option JVal :=
  match dGet d "updated_at" with
  | none => (cats1, latest)
  | some u =>
    if pyTruthy u then
      match latest with
      | none => (cats1, some u)
      | some lv =>
        if !pyTruthy lv then (cats1, some u)
        else
          match pyGt u lv with
          | some true => (cats1, some u)
          | some false => (cats1, latest)
          | none => (bump cats1 uncategorized, latest)
    else (cats1, latest)

/-- One document's contribution (category dict update, then the
`updated_at` tracking of `updStep`). -/
def statsStep (acc : List (JVal × ℕ) × Option JVal) (d : JDoc) :
    List (JVal × ℕ) × Option JVal :=
  let catv := (dGet d "category").getD uncategorized
  if hashable catv then updStep d (bump acc.1 catv) acc.2
  else (bump acc.1 uncategorized, acc.2)

/-- The group's enumerated keys and documents (`client.keys(f"{gid}*")`,
restricted to the JSON documents of the model). -/
def groupDocs (gid : String) (s : RS) : List (String × JDoc) :=
  s.docs.filter (fun kd => strStarts kd.1 gid)

/-- `_calculate_stats(group_id)`: probe the index status, enumerate the
group's keys, and fold the category/`updated_at` projections.  A store
error during the computation (oracle `calcFail`) is caught and yields the
`{"error": msg}` dict. -/
def _calculate_stats (now : String) (calcFail : Option String) (gid : String)
    (s : RS) : StatsResult :=
  match calcFail with
  | some msg => .error msg
  | none =>
    let kds := groupDocs gid s
    let p := kds.foldl (fun acc kd => statsStep acc kd.2) ([], none)
    .stats
      { total_questions := kds.length,
        categories := p.1,
        index_status := if check_index_exists gid s then "active" else "not_found",
        last_updated := p.2,
        cache_time := now }

/-- Truthiness of the computed stats value in `if use_cache and stats:`
— both the stats dict and the error dict are nonempty, hence truthy. -/
def statsTruthy : StatsResult → Bool
  | .stats _ => true
  | .error _ => true

/-- `get_stats(group_id, use_cache)`: serve a decodable cached payload as
a hit; otherwise recompute via `_calculate_stats` and cache the (truthy)
result with the full TTL. -/
def get_stats (now : String) (calcFail : Option String) (gid : String)
    (use_cache : Bool) (s : RS) : StatsResult × RS :=
  match (if use_cache then alGet s.statsKv (statsCacheKey gid) else none) with
  | some (.ser r, _) => (r, s)
  | some (.corrupt, _) | none =>
    let r := _calculate_stats now calcFail gid s
    if use_cache && statsTruthy r then
      (r, { s with statsKv := alSet s.statsKv (statsCacheKey gid) (.ser r, CACHE_TTL) })
    else (r, s)

/-! ### handler.py: EmbeddingService -/

/-- The indices of the non-blank texts (`original_indices`). -/
def embedIndices (texts : List String) : List ℕ :=
  (texts.enum.filter (fun it => pyNonBlank it.2)).map (fun it => it.1)

/-- The stripped non-blank texts sent to the provider (`texts_to_embed`). -/
def embedInputs (texts : List String) : List String :=
  (texts.enum.filter (fun it => pyNonBlank it.2)).map (fun it => pyStrip it.2)

/-- `final_embeddings[original_indices[i]] = data["embedding"]` over the
provider's reply. -/
def scatterEmbeds : List ℕ → List Vec → List Vec → List Vec
  | i :: is, v :: vs, base => scatterEmbeds is vs (base.set i v)
  | _, _, base => base

/-- `EmbeddingService.get_embeddings_batch(texts)`.  Blank entries are
never sent; an all-blank input returns zero vectors without a provider
call.  The provider (oracle `provider`) either fails (`none` — any
exception of the request path, caught and mapped to all-zero vectors) or
returns one embedding per input; a reply longer than `original_indices`
would raise `IndexError` inside the `try`, also yielding all zeros.
Returns the embeddings and whether the provider was called. -/
def get_embeddings_batch (provider : List String → Option (List Vec))
    (texts : List String) : List Vec × Bool :=
  if (embedInputs texts).isEmpty then
    (List.replicate texts.length zeroVec, false)
  else
    match provider (embedInputs texts) with
    | none => (List.replicate texts.length zeroVec, true)
    | some embeds =>
      if (embedIndices texts).length < embeds.length then
        (List.replicate texts.length zeroVec, true)
      else
        (scatterEmbeds (embedIndices texts) embeds (List.replicate texts.length zeroVec),
          true)

/-- `EmbeddingService.get_embedding(text)`: zero vector on blank input,
else the single-element batch call. -/
def get_embedding (provider : List String → Option (List Vec)) (text : String) : Vec :=
  if !pyNonBlank text then zeroVec
  else ((get_embeddings_batch provider [text]).1).headD zeroVec

/-! ### handler.py: request/response data -/

/-- `QuestionInfo` (pydantic): `related_links` is optional (the handler
applies `or []`), `category` defaults to "通用" at the request layer. -/
structure QuestionInfo where
  question_id : String
  question : String
  standard_reply : String
  related_links : Option (List String)
  category : String
deriving DecidableEq, Repr

/-- `AddQuestionRequest`. -/
structure AddQuestionRequest where
  question_info : QuestionInfo
  group_id : String
deriving DecidableEq, Repr

/-- `AddQuestionBatchRequest`. -/
structure AddQuestionBatchRequest where
  question_info_list : List QuestionInfo
  group_id : String
deriving DecidableEq, Repr

/-- `UpdateQuestionRequest`: partial update fields. -/
structure UpdateQuestionRequest where
  question_id : String
  question : Option String
  standard_reply : Option String
  related_links : Option (List String)
  category : Option String
deriving DecidableEq, Repr

/-- A failed item of `add_questions_batch`'s report
(`{"question_id": ..., "reason": ...}`). -/
structure HFail where
  question_id : String
  reason : String
deriving DecidableEq, Repr

/-- One per-query block of the batch-query response. -/
structure QueryBlock where
  query : String
  query_index : ℕ
  results : List SearchResult
  total : ℕ
  original_count : Option ℕ
  error : Option String
deriving DecidableEq, Repr

/-- The `data` payloads carried by the handler's responses. -/
inductive RespData where
  | qidData (question_id : String)
  | batchAdd (success_count failed_count : ℕ) (failed_items : List HFail)
      (total_processed : ℕ)
  | queryBlocks (queries : List QueryBlock) (total_queries : ℕ)
      (min_similarity : Fx) (limit_per_query : ℕ)
deriving DecidableEq, Repr

/-- `ApiResponse`. -/
structure ApiResponse where
  code : ℕ
  status : String
  message : String
  data : Option RespData := none
deriving DecidableEq, Repr

/-- The stored dict built by `add_question` / `add_questions_batch`
(insertion order of the source literal). -/
def buildStoreData (qi : QuestionInfo) (qvec : Vec) (now : String) : JDoc :=
  [("question_id", .str qi.question_id),
   ("question", .str qi.question),
   ("standard_reply", .str qi.standard_reply),
   ("related_links", .strList (qi.related_links.getD [])),
   ("category", .str qi.category),
   ("query_vector", .vec qvec),
   ("created_at", .str now),
   ("updated_at", .str now)]

/-! ### handler.py: HotspotHandler operations -/

/-- `add_question`: ensure the index, reject an already-present
`question_id` with a 400 envelope, else embed the question text, stamp
both timestamps with the current time and store. -/
def add_question (provider : List String → Option (List Vec))
    (writeOk : String → Bool) (now : String) (req : AddQuestionRequest)
    (s : RS) : ApiResponse × RS :=
  let s1 := (create_hotspot_index req.group_id false s).2
  if pyTruthyDoc (get_hotspot_question req.group_id req.question_info.question_id s1) then
    ({ code := 400, status := "error",
       message := "问题ID " ++ req.question_info.question_id ++ " 已存在" }, s1)
  else
    let data := buildStoreData req.question_info
      (get_embedding provider req.question_info.question) now
    let r := store_hotspot_question writeOk req.question_info.question_id data
      req.group_id s1
    if r.1 then
      ({ code := 200, status := "success", message := "问题添加成功",
         data := some (.qidData req.question_info.question_id) }, r.2)
    else
      ({ code := 500, status := "error", message := "问题存储失败" }, r.2)

/-- The duplicate pre-check loop of `add_questions_batch`: the ids of the
request's items already present in the group's documents, in input
order. -/
def collidingIds (qis : List QuestionInfo) (gid : String)
    (docs : List (String × JDoc)) : List String :=
  qis.filterMap (fun qi =>
    if pyTruthyDoc (alGet docs (gid ++ qi.question_id)) then some qi.question_id
    else none)

/-- The per-item store loop of `add_questions_batch` (items enumerated
from `i`; `vecs` always has one vector per item, so the lookup default is
never used). -/
def addBatchStoreLoop (writeOk : String → Bool) (now gid : String)
    (vecs : List Vec) : ℕ → List QuestionInfo → RS → ℕ × List HFail × RS
  | _, [], s => (0, [], s)
  | i, qi :: rest, s =>
    let r := store_hotspot_question writeOk qi.question_id
      (buildStoreData qi (vecs.getD i zeroVec) now) gid s
    let p := addBatchStoreLoop writeOk now gid vecs (i + 1) rest r.2
    if r.1 then (p.1 + 1, p.2.1, p.2.2)
    else (p.1, ⟨qi.question_id, "存储失败"⟩ :: p.2.1, p.2.2)

/-- `add_questions_batch`: ensure the index; reject the whole batch with a
400 envelope naming every id that already exists in the group; otherwise
embed all question texts in one provider call and store each item,
collecting per-item failures into a 200 envelope. -/
def add_questions_batch (provider : List String → Option (List Vec))
    (writeOk : String → Bool) (now : String) (req : AddQuestionBatchRequest)
    (s : RS) : ApiResponse × RS :=
  let s1 := (create_hotspot_index req.group_id false s).2
  let existing_questions := collidingIds req.question_info_list req.group_id s1.docs
  if !existing_questions.isEmpty then
    ({ code := 400, status := "error",
       message := "以下问题ID已存在: " ++ String.intercalate ", " existing_questions }, s1)
  else
    let question_vectors :=
      (get_embeddings_batch provider (req.question_info_list.map (fun qi => qi.question))).1
    let p := addBatchStoreLoop writeOk now req.group_id question_vectors 0
      req.question_info_list s1
    ({ code := 200, status := "success",
       message := "批量添加完成: 成功" ++ toString p.1 ++ "个, 失败"
         ++ toString p.2.1.length ++ "个",
       data := some (.batchAdd p.1 p.2.1.length p.2.1 req.question_info_list.length) },
      p.2.2)

/-- One optional-field assignment of `update_question`'s merge:
`if v is not None: updated_data[k] = wrap(v)`. -/
def applyOptField {β : Type} (d : JDoc) (k : String) (wrap : β → JVal)
    (o : Option β) : JDoc :=
  match o with
  | some v => dSet d k (wrap v)
  | none => d

/-- The merged document built by `update_question`: exactly the fields
present in the partial request are assigned (a present `question` also
recomputes `query_vector`), then `updated_at` is set to the hardcoded
string "2025-01-01" (the source's `# DO: 使用实际时间` placeholder). -/
def mergeUpdate (provider : List String → Option (List Vec))
    (req : UpdateQuestionRequest) (d0 : JDoc) : JDoc :=
  let d1 := match req.question with
    | some q => dSet (dSet d0 "question" (.str q)) "query_vector"
        (.vec (get_embedding provider q))
    | none => d0
  let d2 := applyOptField d1 "standard_reply" JVal.str req.standard_reply
  let d3 := applyOptField d2 "related_links" JVal.strList req.related_links
  let d4 := applyOptField d3 "category" JVal.str req.category
  dSet d4 "updated_at" (.str "2025-01-01")

/-- `update_question`: fetch the existing document from the hardcoded
"default" group; 404 when absent.  Merge the partial request via
`mergeUpdate` and store the merged document back under the same key. -/
def update_question (provider : List String → Option (List Vec))
    (writeOk : String → Bool) (req : UpdateQuestionRequest) (s : RS) :
    ApiResponse × RS :=
  let existing := get_hotspot_question "default" req.question_id s
  if !pyTruthyDoc existing then
    ({ code := 404, status := "error",
       message := "问题ID " ++ req.question_id ++ " 不存在" }, s)
  else
    let d5 := mergeUpdate provider req (existing.getD [])
    let r := store_hotspot_question writeOk req.question_id d5 "default" s
    if r.1 then
      ({ code := 200, status := "success", message := "问题更新成功",
         data := some (.qidData req.question_id) }, r.2)
    else
      ({ code := 500, status := "error", message := "问题更新失败" }, r.2)

/-- The handler's fixed similarity floor 0.5. -/
def minSimDefault : Fx := 50000000

/-- The per-query loop of `query_questions_batch`: one vector search per
query (category filter absent, `min_similarity` left at its 0 default),
then the handler-side 0.5 similarity filter. -/
def queryLoop (dist : Vec → Vec → Fx) (gid : String) (limit : ℕ) :
    ℕ → List (String × Vec) → RS → List QueryBlock × RS
  | _, [], s => ([], s)
  | i, (q, v) :: rest, s =>
    let r := vector_search_questions dist gid v limit none 0 s
    let filtered := r.1.filter (fun x => decide (minSimDefault ≤ simScore x))
    let p := queryLoop dist gid limit (i + 1) rest r.2
    ({ query := q, query_index := i, results := filtered, total := filtered.length,
       original_count := some r.1.length, error := none } :: p.1, p.2)

/-- `query_questions_batch(queries, group_id, limit)`: an empty query list
is rejected with a 400 envelope; otherwise all queries are embedded in one
provider call and searched one by one. -/
def query_questions_batch (provider : List String → Option (List Vec))
    (dist : Vec → Vec → Fx) (queries : List String) (gid : String) (limit : ℕ)
    (s : RS) : ApiResponse × RS :=
  if queries.isEmpty then
    ({ code := 400, status := "error", message := "查询列表不能为空" }, s)
  else
    let query_vectors := (get_embeddings_batch provider queries).1
    let p := queryLoop dist gid limit 0 (queries.zip query_vectors) s
    ({ code := 200, status := "success", message := "批量查询成功",
       data := some (.queryBlocks p.1 queries.length minSimDefault limit) }, p.2)

/-! ### Derived notions used by the statements -/

/-- Sum of the category histogram. -/
def sumCounts (l : List (JVal × ℕ)) : ℕ := (l.map (fun p => p.2)).sum

/-- The count stored in the histogram under a given key. -/
def bucketCount (l : List (JVal × ℕ)) (k : JVal) : ℕ :=
  ((l.filter (fun p => decide (p.1 = k))).map (fun p => p.2)).sum

/-- The bucket a document's category projection is counted under:
its (hashable) category value, or the sentinel for a missing or
unhashable one. -/
def effCat (d : JDoc) : JVal :=
  match dGet d "category" with
  | some (.str c) => .str c
  | some (.num x) => .num x
  | _ => uncategorized

/-- A document whose `updated_at` projection cannot raise `TypeError` in
the stats loop: missing, a string, or falsy. -/
def updSafe (d : JDoc) : Bool :=
  match dGet d "updated_at" with
  | none => true
  | some (.str _) => true
  | some v => !pyTruthy v

/-- Invariant of the stats loop's running latest value: absent or a
string. -/
def latestOk : Option JVal → Bool
  | none => true
  | some (.str _) => true
  | some _ => false

/-- The `categories` histogram of a stats result (empty on the error
object). -/
def statsCategoriesOf : StatsResult → List (JVal × ℕ)
  | .stats st => st.categories
  | .error _ => []

/-- The `total_questions` field of a stats result (0 on the error
object). -/
def statsTotalOf : StatsResult → ℕ
  | .stats st => st.total_questions
  | .error _ => 0

/-! ### Helper lemmas: association lists and state plumbing -/

theorem alGet_alSet_self {β : Type} (l : List (String × β)) (k : String) (v : β) :
    alGet (alSet l k v) k = some v := by
  induction l with
  | nil => simp [alGet, alSet]
  | cons kv rest ih =>
    obtain ⟨k1, v1⟩ := kv
    by_cases h : k1 = k
    · simp [alGet, alSet, h]
    · simp [alGet, alSet, h, ih]

theorem alGet_alDel_self {β : Type} (l : List (String × β)) (k : String) :
    alGet (alDel l k) k = none := by
  induction l with
  | nil => simp [alGet, alDel]
  | cons kv rest ih =>
    obtain ⟨k1, v1⟩ := kv
    by_cases h : k1 = k
    · simpa [alDel, List.filter, h] using ih
    · simpa [alDel, List.filter, h, alGet] using ih

theorem dGet_dSet_self (d : JDoc) (k : String) (v : JVal) :
    dGet (dSet d k v) k = some v := by
  induction d with
  | nil => simp [dGet, dSet]
  | cons kv rest ih =>
    obtain ⟨k1, v1⟩ := kv
    by_cases h : k1 = k
    · simp [dGet, dSet, h]
    · simp [dGet, dSet, h, ih]

theorem dGet_dSet_ne (d : JDoc) (k k2 : String) (v : JVal) (h : k2 ≠ k) :
    dGet (dSet d k v) k2 = dGet d k2 := by
  induction d with
  | nil =>
    simp only [dSet, dGet]
    rw [if_neg (fun hk => h hk.symm)]
  | cons kv rest ih =>
    obtain ⟨k1, v1⟩ := kv
    simp only [dSet]
    by_cases h1 : k1 = k
    · rw [if_pos h1]
      simp only [dGet]
      have hne : k1 ≠ k2 := by rw [h1]; exact fun hk => h hk.symm
      rw [if_neg hne, if_neg hne]
    · rw [if_neg h1]
      simp only [dGet]
      by_cases h2 : k1 = k2
      · rw [if_pos h2, if_pos h2]
      · rw [if_neg h2, if_neg h2, ih]

theorem dHasKey_dSet (d : JDoc) (k k2 : String) (v : JVal) (h : dHasKey d k2 = true) :
    dHasKey (dSet d k v) k2 = true := by
  by_cases hk : k2 = k
  · subst hk; simp [dHasKey, dGet_dSet_self]
  · simpa [dHasKey, dGet_dSet_ne d k k2 v hk] using h

theorem hasRequiredKeys_dSet (d : JDoc) (k : String) (v : JVal)
    (h : hasRequiredKeys d = true) : hasRequiredKeys (dSet d k v) = true := by
  simp only [hasRequiredKeys, Bool.and_eq_true] at h ⊢
  exact ⟨⟨⟨dHasKey_dSet _ _ _ _ h.1.1.1, dHasKey_dSet _ _ _ _ h.1.1.2⟩,
    dHasKey_dSet _ _ _ _ h.1.2⟩, dHasKey_dSet _ _ _ _ h.2⟩

theorem create_hotspot_index_docs (gid : String) (force : Bool) (s : RS) :
    ((create_hotspot_index gid force s).2).docs = s.docs := by
  unfold create_hotspot_index
  split <;> rfl

theorem create_hotspot_index_statsKv (gid : String) (force : Bool) (s : RS) :
    ((create_hotspot_index gid force s).2).statsKv = s.statsKv := by
  unfold create_hotspot_index
  split <;> rfl

/-! ### C2: adding a duplicate question_id is rejected without a write -/

/-- C2: for every group and every (nonempty) document already stored under
the request's `question_id`, `add_question` returns the 400 validation
envelope and leaves the document store untouched. -/
theorem C2_add_duplicate_rejected (provider : List String → Option (List Vec))
    (writeOk : String → Bool) (now : String) (req : AddQuestionRequest) (s : RS)
    (d : JDoc)
    (hd : alGet s.docs (req.group_id ++ req.question_info.question_id) = some d)
    (hne : d ≠ []) :
    (add_question provider writeOk now req s).1.code = 400 ∧
    (add_question provider writeOk now req s).1.status = "error" ∧
    ((add_question provider writeOk now req s).2).docs = s.docs := by
  have hdocs := create_hotspot_index_docs req.group_id false s
  have htr : pyTruthyDoc (get_hotspot_question req.group_id
      req.question_info.question_id (create_hotspot_index req.group_id false s).2) = true := by
    rw [get_hotspot_question, hdocs, hd]
    cases d with
    | nil => exact absurd rfl hne
    | cons a l => simp [pyTruthyDoc]
  simp only [add_question, htr, if_true]
  simp [create_hotspot_index_docs]

/-- Witness for C2 at a concrete duplicate add. -/
theorem C2_add_duplicate_rejected_witness :
    (add_question (fun _ => some [[0]]) (fun _ => true) "t1"
        ⟨⟨"q1", "how", "r", none, "通用"⟩, "g"⟩
        ⟨[("gq1", [("question_id", JVal.str "q1")])], [], [], []⟩).1.code = 400 ∧
    (add_question (fun _ => some [[0]]) (fun _ => true) "t1"
        ⟨⟨"q1", "how", "r", none, "通用"⟩, "g"⟩
        ⟨[("gq1", [("question_id", JVal.str "q1")])], [], [], []⟩).1.status = "error" ∧
    ((add_question (fun _ => some [[0]]) (fun _ => true) "t1"
        ⟨⟨"q1", "how", "r", none, "通用"⟩, "g"⟩
        ⟨[("gq1", [("question_id", JVal.str "q1")])], [], [], []⟩).2).docs =
      ([("gq1", [("question_id", JVal.str "q1")])] : List (String × JDoc)) :=
  C2_add_duplicate_rejected (fun _ => some [[0]]) (fun _ => true) "t1"
    ⟨⟨"q1", "how", "r", none, "通用"⟩, "g"⟩
    ⟨[("gq1", [("question_id", JVal.str "q1")])], [], [], []⟩
    [("question_id", JVal.str "q1")] (by decide) (by decide)

/-! ### C6: which mutations invalidate the stats cache -/

/-- C6 (amended): the delete operations invalidate the group's stats-cache
entry — `delete_hotspot_question` on a present key deletes the document
and the cache entry, and `delete_questions_by_category` deletes the cache
entry whenever any matching key was found (the add operations do not, see
the counterexample). -/
theorem C6_deletes_invalidate_stats_cache :
    (∀ gid qid s d, alGet s.docs (gid ++ qid) = some d →
      (delete_hotspot_question gid qid s).1 = true ∧
      alGet ((delete_hotspot_question gid qid s).2).docs (gid ++ qid) = none ∧
      alGet ((delete_hotspot_question gid qid s).2).statsKv (statsCacheKey gid) = none) ∧
    (∀ gid cat s, check_index_exists gid s = true →
      s.docs.filter (fun kd =>
        strStarts kd.1 gid && decide (dGet kd.2 "category" = some (.str cat))) ≠ [] →
      alGet ((delete_questions_by_category gid cat s).2).statsKv (statsCacheKey gid)
        = none) := by
  constructor
  · intro gid qid s d hd
    simp only [delete_hotspot_question, hd]
    exact ⟨trivial, alGet_alDel_self _ _, alGet_alDel_self _ _⟩
  · intro gid cat s hidx hne
    have hks : ((s.docs.filter (fun kd =>
        strStarts kd.1 gid && decide (dGet kd.2 "category" = some (.str cat)))).map
        (fun kd => kd.1)).isEmpty = false := by
      rcases hf : s.docs.filter (fun kd =>
        strStarts kd.1 gid && decide (dGet kd.2 "category" = some (.str cat))) with
        _ | ⟨a, l⟩
      · exact absurd hf hne
      · rw [hf]; rfl
    simp only [delete_questions_by_category, hidx, Bool.not_true, if_false, hks]
    exact alGet_alDel_self _ _

/-- Witness for C6 at concrete deletes. -/
theorem C6_deletes_invalidate_stats_cache_witness :
    ((delete_hotspot_question "g" "q1"
        ⟨[("gq1", [("category", JVal.str "c")])], [],
          [("hotspot:stats:g", .ser (.error "m"), 300)], ["g"]⟩).1 = true ∧
      alGet ((delete_hotspot_question "g" "q1"
        ⟨[("gq1", [("category", JVal.str "c")])], [],
          [("hotspot:stats:g", .ser (.error "m"), 300)], ["g"]⟩).2).docs ("g" ++ "q1")
        = none ∧
      alGet ((delete_hotspot_question "g" "q1"
        ⟨[("gq1", [("category", JVal.str "c")])], [],
          [("hotspot:stats:g", .ser (.error "m"), 300)], ["g"]⟩).2).statsKv
        (statsCacheKey "g") = none) ∧
    alGet ((delete_questions_by_category "g" "c"
        ⟨[("gq1", [("category", JVal.str "c")])], [],
          [("hotspot:stats:g", .ser (.error "m"), 300)], ["g"]⟩).2).statsKv
      (statsCacheKey "g") = none :=
  ⟨C6_deletes_invalidate_stats_cache.1 "g" "q1"
      ⟨[("gq1", [("category", JVal.str "c")])], [],
        [("hotspot:stats:g", .ser (.error "m"), 300)], ["g"]⟩
      [("category", JVal.str "c")] (by decide),
    C6_deletes_invalidate_stats_cache.2 "g" "c"
      ⟨[("gq1", [("category", JVal.str "c")])], [],
        [("hotspot:stats:g", .ser (.error "m"), 300)], ["g"]⟩
      (by decide) (by decide)⟩

/-- C6 counterexample: a successful `add_question` leaves the group's
cached stats entry in place, so a stats read served from the cache still
reports the pre-add statistics (0 documents) although a document was just
written. -/
theorem C6_add_does_not_invalidate_counterexample :
    (add_question (fun ts => some (ts.map (fun _ => [0]))) (fun _ => true) "t1"
        ⟨⟨"q1", "how", "r", none, "通用"⟩, "g"⟩
        ⟨[], [], [("hotspot:stats:g", .ser (.stats ⟨0, [], "active", none, "t0"⟩), 300)],
          ["g"]⟩).1.code = 200 ∧
    (get_stats "t2" none "g" true
        (add_question (fun ts => some (ts.map (fun _ => [0]))) (fun _ => true) "t1"
          ⟨⟨"q1", "how", "r", none, "通用"⟩, "g"⟩
          ⟨[], [], [("hotspot:stats:g", .ser (.stats ⟨0, [], "active", none, "t0"⟩), 300)],
            ["g"]⟩).2).1 = .stats ⟨0, [], "active", none, "t0"⟩ ∧
    ((add_question (fun ts => some (ts.map (fun _ => [0]))) (fun _ => true) "t1"
        ⟨⟨"q1", "how", "r", none, "通用"⟩, "g"⟩
        ⟨[], [], [("hotspot:stats:g", .ser (.stats ⟨0, [], "active", none, "t0"⟩), 300)],
          ["g"]⟩).2).docs ≠ [] := by
  refine ⟨by decide, by decide, by decide⟩

/-! ### C9: empty batch inputs -/

/-- C9 (amended): `query_questions_batch` rejects an empty query list with
the 400 validation envelope, while `add_questions_batch` accepts an empty
batch and returns a 200 success envelope (with zero counts). -/
theorem C9_empty_batch_behavior :
    (∀ (provider : List String → Option (List Vec)) (dist : Vec → Vec → Fx)
      (gid : String) (limit : ℕ) (s : RS),
      (query_questions_batch provider dist [] gid limit s).1.code = 400 ∧
      (query_questions_batch provider dist [] gid limit s).1.status = "error") ∧
    (∀ (provider : List String → Option (List Vec)) (writeOk : String → Bool)
      (now gid : String) (s : RS),
      (add_questions_batch provider writeOk now ⟨[], gid⟩ s).1.code = 200 ∧
      (add_questions_batch provider writeOk now ⟨[], gid⟩ s).1.status = "success") := by
  constructor
  · intro provider dist gid limit s
    exact ⟨rfl, rfl⟩
  · intro provider writeOk now gid s
    simp only [add_questions_batch, collidingIds, List.filterMap_nil, List.isEmpty_nil,
      Bool.not_true, if_false]
    exact ⟨rfl, rfl⟩

/-- C9 counterexample: an empty `add_questions_batch` call returns a 200
success envelope, not the 400 validation envelope the claim requires. -/
theorem C9_empty_add_batch_counterexample :
    (add_questions_batch (fun ts => some (ts.map (fun _ => [0]))) (fun _ => true) "t"
        ⟨[], "g"⟩ ⟨[], [], [], []⟩).1.code = 200 ∧
    (add_questions_batch (fun ts => some (ts.map (fun _ => [0]))) (fun _ => true) "t"
        ⟨[], "g"⟩ ⟨[], [], [], []⟩).1.status = "success" ∧
    ¬(add_questions_batch (fun ts => some (ts.map (fun _ => [0]))) (fun _ => true) "t"
        ⟨[], "g"⟩ ⟨[], [], [], []⟩).1.code = 400 := by
  refine ⟨by decide, by decide, by decide⟩

/-! ### C10: a failed stats computation is cached with the full TTL -/

/-- C10: when the stats computation fails and there is no cached entry,
`get_stats` returns the error-carrying stats object, writes it into the
stats cache with the full TTL, and any subsequent cached read for that
group returns the same error object with the state unchanged (a cache hit,
no recomputation — the second read's outcome is independent of the
computation oracle). -/
theorem C10_error_stats_cached (now msg gid : String) (s : RS)
    (h : alGet s.statsKv (statsCacheKey gid) = none) :
    (get_stats now (some msg) gid true s).1 = .error msg ∧
    alGet ((get_stats now (some msg) gid true s).2).statsKv (statsCacheKey gid)
      = some (.ser (.error msg), CACHE_TTL) ∧
    (∀ (now2 : String) (calcFail2 : Option String),
      get_stats now2 calcFail2 gid true ((get_stats now (some msg) gid true s).2)
        = (.error msg, (get_stats now (some msg) gid true s).2)) := by
  have h1 : get_stats now (some msg) gid true s =
      (StatsResult.error msg,
        { s with statsKv := (alSet s.statsKv (statsCacheKey gid) (SerStats.ser (StatsResult.error msg), CACHE_TTL)) }) := by
    simp only [get_stats, if_true, h, _calculate_stats, statsTruthy, Bool.and_self]
  refine ⟨by rw [h1], by rw [h1]; exact alGet_alSet_self _ _ _, ?_⟩
  intro now2 calcFail2
  rw [h1]
  simp only [get_stats, if_true, alGet_alSet_self]

/-- Witness for C10 from an empty cache. -/
theorem C10_error_stats_cached_witness :
    (get_stats "t1" (some "boom") "g" true ⟨[], [], [], []⟩).1 = .error "boom" ∧
    alGet ((get_stats "t1" (some "boom") "g" true ⟨[], [], [], []⟩).2).statsKv
      (statsCacheKey "g") = some (.ser (.error "boom"), CACHE_TTL) ∧
    get_stats "t2" none "g" true
        ((get_stats "t1" (some "boom") "g" true ⟨[], [], [], []⟩).2)
      = (.error "boom", (get_stats "t1" (some "boom") "g" true ⟨[], [], [], []⟩).2) :=
  ⟨(C10_error_stats_cached "t1" "boom" "g" ⟨[], [], [], []⟩ (by decide)).1,
    (C10_error_stats_cached "t1" "boom" "g" ⟨[], [], [], []⟩ (by decide)).2.1,
    (C10_error_stats_cached "t1" "boom" "g" ⟨[], [], [], []⟩ (by decide)).2.2 "t2" none⟩

/-! ### C3: duplicate handling of add_questions_batch -/

/-- C3 (amended): when any id of the batch already exists in the group,
the whole batch is rejected with a 400 envelope, zero documents are
written, and the message names exactly the colliding ids (the ids of the
request items whose key is already present).  Duplicates purely within the
batch are not covered (see the counterexample). -/
theorem C3_preexisting_duplicates_reject_batch
    (provider : List String → Option (List Vec)) (writeOk : String → Bool)
    (now : String) (req : AddQuestionBatchRequest) (s : RS)
    (h : collidingIds req.question_info_list req.group_id s.docs ≠ []) :
    (add_questions_batch provider writeOk now req s).1.code = 400 ∧
    (add_questions_batch provider writeOk now req s).1.status = "error" ∧
    (add_questions_batch provider writeOk now req s).1.message =
      "以下问题ID已存在: " ++ String.intercalate ", "
        (collidingIds req.question_info_list req.group_id s.docs) ∧
    ((add_questions_batch provider writeOk now req s).2).docs = s.docs ∧
    (∀ q, q ∈ collidingIds req.question_info_list req.group_id s.docs ↔
      ∃ qi ∈ req.question_info_list, qi.question_id = q ∧
        pyTruthyDoc (alGet s.docs (req.group_id ++ q)) = true) := by
  have hdocs := create_hotspot_index_docs req.group_id false s
  have hne : (collidingIds req.question_info_list req.group_id
      ((create_hotspot_index req.group_id false s).2).docs).isEmpty = false := by
    rw [hdocs]
    rcases hc : collidingIds req.question_info_list req.group_id s.docs with _ | ⟨a, l⟩
    · exact absurd hc h
    · rfl
  refine ⟨?_, ?_, ?_, ?_, ?_⟩
  · simp only [add_questions_batch, hne, Bool.not_false, if_true]
  · simp only [add_questions_batch, hne, Bool.not_false, if_true]
  · simp only [add_questions_batch, hne, Bool.not_false, if_true]
    rw [hdocs]
  · simp only [add_questions_batch, hne, Bool.not_false, if_true]
    exact hdocs
  · intro q
    simp only [collidingIds, List.mem_filterMap]
    constructor
    · rintro ⟨qi, hmem, hf⟩
      by_cases ht : pyTruthyDoc (alGet s.docs (req.group_id ++ qi.question_id)) = true
      · rw [if_pos ht] at hf
        have hq := Option.some.inj hf
        exact ⟨qi, hmem, hq, by rw [← hq]; exact ht⟩
      · rw [if_neg ht] at hf
        cases hf
    · rintro ⟨qi, hmem, hq, ht⟩
      refine ⟨qi, hmem, ?_⟩
      subst hq
      rw [if_pos ht]

/-- Witness for C3 at a concrete batch colliding with a stored document. -/
theorem C3_preexisting_duplicates_reject_batch_witness :
    (add_questions_batch (fun ts => some (ts.map (fun _ => [0]))) (fun _ => true) "t"
        ⟨[⟨"dup", "q", "r", none, "通用"⟩], "g"⟩
        ⟨[("gdup", [("question_id", JVal.str "dup")])], [], [], []⟩).1.code = 400 ∧
    (add_questions_batch (fun ts => some (ts.map (fun _ => [0]))) (fun _ => true) "t"
        ⟨[⟨"dup", "q", "r", none, "通用"⟩], "g"⟩
        ⟨[("gdup", [("question_id", JVal.str "dup")])], [], [], []⟩).1.status = "error" ∧
    ((add_questions_batch (fun ts => some (ts.map (fun _ => [0]))) (fun _ => true) "t"
        ⟨[⟨"dup", "q", "r", none, "通用"⟩], "g"⟩
        ⟨[("gdup", [("question_id", JVal.str "dup")])], [], [], []⟩).2).docs =
      ([("gdup", [("question_id", JVal.str "dup")])] : List (String × JDoc)) ∧
    ("dup" ∈ collidingIds [⟨"dup", "q", "r", none, "通用"⟩] "g"
        [("gdup", [("question_id", JVal.str "dup")])] ↔
      ∃ qi ∈ ([⟨"dup", "q", "r", none, "通用"⟩] : List QuestionInfo),
        qi.question_id = "dup" ∧
        pyTruthyDoc (alGet [("gdup", [("question_id", JVal.str "dup")])] ("g" ++ "dup"))
          = true) := by
  have T := C3_preexisting_duplicates_reject_batch
    (fun ts => some (ts.map (fun _ => [0]))) (fun _ => true) "t"
    ⟨[⟨"dup", "q", "r", none, "通用"⟩], "g"⟩
    ⟨[("gdup", [("question_id", JVal.str "dup")])], [], [], []⟩ (by decide)
  exact ⟨T.1, T.2.1, T.2.2.2.1, T.2.2.2.2 "dup"⟩

/-- C3 counterexample: two items sharing `question_id="dup"` inside one
batch (with no pre-existing document) are not detected: the batch is
accepted with a 200 envelope, both items are reported as successes, the
failure details are empty (the id "dup" is reported nowhere), and a write
occurred. -/
theorem C3_within_batch_duplicate_counterexample :
    (add_questions_batch (fun ts => some (ts.map (fun _ => [0]))) (fun _ => true) "t0"
        ⟨[⟨"dup", "q", "r", none, "通用"⟩, ⟨"dup", "q", "r", none, "通用"⟩], "g"⟩
        ⟨[], [], [], []⟩).1.code = 200 ∧
    (add_questions_batch (fun ts => some (ts.map (fun _ => [0]))) (fun _ => true) "t0"
        ⟨[⟨"dup", "q", "r", none, "通用"⟩, ⟨"dup", "q", "r", none, "通用"⟩], "g"⟩
        ⟨[], [], [], []⟩).1.data = some (.batchAdd 2 0 [] 2) ∧
    ((add_questions_batch (fun ts => some (ts.map (fun _ => [0]))) (fun _ => true) "t0"
        ⟨[⟨"dup", "q", "r", none, "通用"⟩, ⟨"dup", "q", "r", none, "通用"⟩], "g"⟩
        ⟨[], [], [], []⟩).2).docs ≠ [] := by
  refine ⟨by decide, by decide, by decide⟩

/-! ### C4: update semantics -/

theorem dGet_applyOptField_ne {β : Type} (d : JDoc) (k : String) (wrap : β → JVal)
    (o : Option β) (k2 : String) (h : k2 ≠ k) :
    dGet (applyOptField d k wrap o) k2 = dGet d k2 := by
  cases o with
  | none => rfl
  | some v => exact dGet_dSet_ne d k k2 (wrap v) h

theorem hasRequiredKeys_applyOptField {β : Type} (d : JDoc) (k : String)
    (wrap : β → JVal) (o : Option β) (h : hasRequiredKeys d = true) :
    hasRequiredKeys (applyOptField d k wrap o) = true := by
  cases o with
  | none => exact h
  | some v => exact hasRequiredKeys_dSet d k (wrap v) h

theorem hasRequiredKeys_mergeUpdate (provider : List String → Option (List Vec))
    (req : UpdateQuestionRequest) (d : JDoc) (h : hasRequiredKeys d = true) :
    hasRequiredKeys (mergeUpdate provider req d) = true := by
  apply hasRequiredKeys_dSet
  apply hasRequiredKeys_applyOptField
  apply hasRequiredKeys_applyOptField
  apply hasRequiredKeys_applyOptField
  cases hq : req.question with
  | none => exact h
  | some q => exact hasRequiredKeys_dSet _ _ _ (hasRequiredKeys_dSet _ _ _ h)

theorem applyOptField_some {β : Type} (d : JDoc) (k : String) (wrap : β → JVal)
    (v : β) : applyOptField d k wrap (some v) = dSet d k (wrap v) := rfl

theorem applyOptField_none {β : Type} (d : JDoc) (k : String) (wrap : β → JVal) :
    applyOptField d k wrap none = d := rfl

theorem mergeUpdate_updated_at (provider : List String → Option (List Vec))
    (req : UpdateQuestionRequest) (d : JDoc) :
    dGet (mergeUpdate provider req d) "updated_at" = some (.str "2025-01-01") :=
  dGet_dSet_self _ _ _

theorem mergeUpdate_qv_some (provider : List String → Option (List Vec))
    (req : UpdateQuestionRequest) (d : JDoc) (q : String)
    (h : req.question = some q) :
    dGet (mergeUpdate provider req d) "query_vector"
      = some (.vec (get_embedding provider q)) := by
  simp only [mergeUpdate, h]
  rw [dGet_dSet_ne _ _ _ _ (by decide), dGet_applyOptField_ne _ _ _ _ _ (by decide),
    dGet_applyOptField_ne _ _ _ _ _ (by decide),
    dGet_applyOptField_ne _ _ _ _ _ (by decide)]
  exact dGet_dSet_self _ _ _

theorem mergeUpdate_question_some (provider : List String → Option (List Vec))
    (req : UpdateQuestionRequest) (d : JDoc) (q : String)
    (h : req.question = some q) :
    dGet (mergeUpdate provider req d) "question" = some (.str q) := by
  simp only [mergeUpdate, h]
  rw [dGet_dSet_ne _ _ _ _ (by decide), dGet_applyOptField_ne _ _ _ _ _ (by decide),
    dGet_applyOptField_ne _ _ _ _ _ (by decide),
    dGet_applyOptField_ne _ _ _ _ _ (by decide),
    dGet_dSet_ne _ _ _ _ (by decide)]
  exact dGet_dSet_self _ _ _

theorem mergeUpdate_qv_none (provider : List String → Option (List Vec))
    (req : UpdateQuestionRequest) (d : JDoc) (h : req.question = none) :
    dGet (mergeUpdate provider req d) "query_vector" = dGet d "query_vector" := by
  simp only [mergeUpdate, h]
  rw [dGet_dSet_ne _ _ _ _ (by decide), dGet_applyOptField_ne _ _ _ _ _ (by decide),
    dGet_applyOptField_ne _ _ _ _ _ (by decide),
    dGet_applyOptField_ne _ _ _ _ _ (by decide)]

theorem mergeUpdate_question_none (provider : List String → Option (List Vec))
    (req : UpdateQuestionRequest) (d : JDoc) (h : req.question = none) :
    dGet (mergeUpdate provider req d) "question" = dGet d "question" := by
  simp only [mergeUpdate, h]
  rw [dGet_dSet_ne _ _ _ _ (by decide), dGet_applyOptField_ne _ _ _ _ _ (by decide),
    dGet_applyOptField_ne _ _ _ _ _ (by decide),
    dGet_applyOptField_ne _ _ _ _ _ (by decide)]

theorem mergeUpdate_d1_other (provider : List String → Option (List Vec))
    (req : UpdateQuestionRequest) (d : JDoc) (k : String)
    (h1 : k ≠ "query_vector") (h2 : k ≠ "question") :
    dGet (match req.question with
      | some q => dSet (dSet d "question" (JVal.str q)) "query_vector"
          (JVal.vec (get_embedding provider q))
      | none => d) k = dGet d k := by
  cases hq : req.question with
  | none => rfl
  | some q => rw [dGet_dSet_ne _ _ _ _ h1, dGet_dSet_ne _ _ _ _ h2]

theorem mergeUpdate_sr_some (provider : List String → Option (List Vec))
    (req : UpdateQuestionRequest) (d : JDoc) (v : String)
    (h : req.standard_reply = some v) :
    dGet (mergeUpdate provider req d) "standard_reply" = some (.str v) := by
  simp only [mergeUpdate, h, applyOptField_some]
  rw [dGet_dSet_ne _ _ _ _ (by decide), dGet_applyOptField_ne _ _ _ _ _ (by decide),
    dGet_applyOptField_ne _ _ _ _ _ (by decide)]
  exact dGet_dSet_self _ _ _

theorem mergeUpdate_sr_none (provider : List String → Option (List Vec))
    (req : UpdateQuestionRequest) (d : JDoc) (h : req.standard_reply = none) :
    dGet (mergeUpdate provider req d) "standard_reply" = dGet d "standard_reply" := by
  simp only [mergeUpdate, h, applyOptField_none]
  rw [dGet_dSet_ne _ _ _ _ (by decide), dGet_applyOptField_ne _ _ _ _ _ (by decide),
    dGet_applyOptField_ne _ _ _ _ _ (by decide)]
  exact mergeUpdate_d1_other provider req d "standard_reply" (by decide) (by decide)

theorem mergeUpdate_rl_some (provider : List String → Option (List Vec))
    (req : UpdateQuestionRequest) (d : JDoc) (v : List String)
    (h : req.related_links = some v) :
    dGet (mergeUpdate provider req d) "related_links" = some (.strList v) := by
  simp only [mergeUpdate, h, applyOptField_some]
  rw [dGet_dSet_ne _ _ _ _ (by decide), dGet_applyOptField_ne _ _ _ _ _ (by decide)]
  exact dGet_dSet_self _ _ _

theorem mergeUpdate_rl_none (provider : List String → Option (List Vec))
    (req : UpdateQuestionRequest) (d : JDoc) (h : req.related_links = none) :
    dGet (mergeUpdate provider req d) "related_links" = dGet d "related_links" := by
  simp only [mergeUpdate, h, applyOptField_none]
  rw [dGet_dSet_ne _ _ _ _ (by decide), dGet_applyOptField_ne _ _ _ _ _ (by decide),
    dGet_applyOptField_ne _ _ _ _ _ (by decide)]
  exact mergeUpdate_d1_other provider req d "related_links" (by decide) (by decide)

theorem mergeUpdate_cat_some (provider : List String → Option (List Vec))
    (req : UpdateQuestionRequest) (d : JDoc) (v : String)
    (h : req.category = some v) :
    dGet (mergeUpdate provider req d) "category" = some (.str v) := by
  simp only [mergeUpdate, h, applyOptField_some]
  rw [dGet_dSet_ne _ _ _ _ (by decide)]
  exact dGet_dSet_self _ _ _

theorem mergeUpdate_cat_none (provider : List String → Option (List Vec))
    (req : UpdateQuestionRequest) (d : JDoc) (h : req.category = none) :
    dGet (mergeUpdate provider req d) "category" = dGet d "category" := by
  simp only [mergeUpdate, h, applyOptField_none]
  rw [dGet_dSet_ne _ _ _ _ (by decide), dGet_applyOptField_ne _ _ _ _ _ (by decide),
    dGet_applyOptField_ne _ _ _ _ _ (by decide)]
  exact mergeUpdate_d1_other provider req d "category" (by decide) (by decide)

/-- C4: `update_question` on an existing (well-formed) document succeeds,
stores exactly the merge of the fields present in the partial request —
`query_vector` is recomputed exactly when `question` is present, absent
fields keep their stored values — but the stored `updated_at` is the
hardcoded constant "2025-01-01", not the time of the update (the code bug
behind this claim). -/
theorem C4_update_merge_and_hardcoded_updated_at
    (provider : List String → Option (List Vec)) (writeOk : String → Bool)
    (req : UpdateQuestionRequest) (s : RS) (d : JDoc)
    (hd : alGet s.docs ("default" ++ req.question_id) = some d)
    (hne : d ≠ []) (hrk : hasRequiredKeys d = true)
    (hwk : writeOk ("default" ++ req.question_id) = true) :
    (update_question provider writeOk req s).1.code = 200 ∧
    alGet ((update_question provider writeOk req s).2).docs
      ("default" ++ req.question_id) = some (mergeUpdate provider req d) ∧
    dGet (mergeUpdate provider req d) "updated_at" = some (.str "2025-01-01") ∧
    (∀ q, req.question = some q →
      dGet (mergeUpdate provider req d) "query_vector"
        = some (.vec (get_embedding provider q)) ∧
      dGet (mergeUpdate provider req d) "question" = some (.str q)) ∧
    (req.question = none →
      dGet (mergeUpdate provider req d) "query_vector" = dGet d "query_vector" ∧
      dGet (mergeUpdate provider req d) "question" = dGet d "question") ∧
    (∀ v, req.standard_reply = some v →
      dGet (mergeUpdate provider req d) "standard_reply" = some (.str v)) ∧
    (req.standard_reply = none →
      dGet (mergeUpdate provider req d) "standard_reply" = dGet d "standard_reply") ∧
    (∀ v, req.related_links = some v →
      dGet (mergeUpdate provider req d) "related_links" = some (.strList v)) ∧
    (req.related_links = none →
      dGet (mergeUpdate provider req d) "related_links" = dGet d "related_links") ∧
    (∀ v, req.category = some v →
      dGet (mergeUpdate provider req d) "category" = some (.str v)) ∧
    (req.category = none →
      dGet (mergeUpdate provider req d) "category" = dGet d "category") := by
  have htr : pyTruthyDoc (get_hotspot_question "default" req.question_id s) = true := by
    rw [get_hotspot_question, hd]
    cases d with
    | nil => exact absurd rfl hne
    | cons a l => rfl
  have hrk5 := hasRequiredKeys_mergeUpdate provider req d hrk
  have htr2 : pyTruthyDoc (some d) = true := by
    rw [get_hotspot_question, hd] at htr
    exact htr
  have hrun : update_question provider writeOk req s =
      ({ code := 200, status := "success", message := "问题更新成功",
         data := some (.qidData req.question_id) },
        { s with docs := (alSet s.docs ("default" ++ req.question_id) (mergeUpdate provider req d)) }) := by
    simp [update_question, get_hotspot_question, hd, htr2, store_hotspot_question,
      hrk5, hwk]
  refine ⟨by rw [hrun], by rw [hrun]; exact alGet_alSet_self _ _ _,
    mergeUpdate_updated_at provider req d, ?_, ?_, ?_, ?_, ?_, ?_, ?_, ?_⟩
  · intro q hq
    exact ⟨mergeUpdate_qv_some provider req d q hq,
      mergeUpdate_question_some provider req d q hq⟩
  · intro hq
    exact ⟨mergeUpdate_qv_none provider req d hq,
      mergeUpdate_question_none provider req d hq⟩
  · intro v hv
    exact mergeUpdate_sr_some provider req d v hv
  · intro hv
    exact mergeUpdate_sr_none provider req d hv
  · intro v hv
    exact mergeUpdate_rl_some provider req d v hv
  · intro hv
    exact mergeUpdate_rl_none provider req d hv
  · intro v hv
    exact mergeUpdate_cat_some provider req d v hv
  · intro hv
    exact mergeUpdate_cat_none provider req d hv

/-- Witness for C4 at a concrete partial update (only `standard_reply`
present) of a well-formed stored document. -/
theorem C4_update_merge_and_hardcoded_updated_at_witness :
    (update_question (fun _ => some [[0]]) (fun _ => true)
        ⟨"q1", none, some "new", none, none⟩
        ⟨[("defaultq1",
            [("question_id", JVal.str "q1"), ("question", JVal.str "how"),
             ("standard_reply", JVal.str "old"), ("category", JVal.str "c"),
             ("query_vector", JVal.vec [7]), ("updated_at", JVal.str "2024-06-01")])],
          [], [], []⟩).1.code = 200 ∧
    dGet (mergeUpdate (fun _ => some [[0]]) ⟨"q1", none, some "new", none, none⟩
        [("question_id", JVal.str "q1"), ("question", JVal.str "how"),
         ("standard_reply", JVal.str "old"), ("category", JVal.str "c"),
         ("query_vector", JVal.vec [7]), ("updated_at", JVal.str "2024-06-01")])
      "updated_at" = some (.str "2025-01-01") ∧
    dGet (mergeUpdate (fun _ => some [[0]]) ⟨"q1", none, some "new", none, none⟩
        [("question_id", JVal.str "q1"), ("question", JVal.str "how"),
         ("standard_reply", JVal.str "old"), ("category", JVal.str "c"),
         ("query_vector", JVal.vec [7]), ("updated_at", JVal.str "2024-06-01")])
      "standard_reply" = some (.str "new") ∧
    dGet (mergeUpdate (fun _ => some [[0]]) ⟨"q1", none, some "new", none, none⟩
        [("question_id", JVal.str "q1"), ("question", JVal.str "how"),
         ("standard_reply", JVal.str "old"), ("category", JVal.str "c"),
         ("query_vector", JVal.vec [7]), ("updated_at", JVal.str "2024-06-01")])
      "query_vector" =
      dGet [("question_id", JVal.str "q1"), ("question", JVal.str "how"),
         ("standard_reply", JVal.str "old"), ("category", JVal.str "c"),
         ("query_vector", JVal.vec [7]), ("updated_at", JVal.str "2024-06-01")]
        "query_vector" := by
  have T := C4_update_merge_and_hardcoded_updated_at (fun _ => some [[0]])
    (fun _ => true) ⟨"q1", none, some "new", none, none⟩
    ⟨[("defaultq1",
        [("question_id", JVal.str "q1"), ("question", JVal.str "how"),
         ("standard_reply", JVal.str "old"), ("category", JVal.str "c"),
         ("query_vector", JVal.vec [7]), ("updated_at", JVal.str "2024-06-01")])],
      [], [], []⟩
    [("question_id", JVal.str "q1"), ("question", JVal.str "how"),
     ("standard_reply", JVal.str "old"), ("category", JVal.str "c"),
     ("query_vector", JVal.vec [7]), ("updated_at", JVal.str "2024-06-01")]
    (by decide) (by decide) (by decide) rfl
  exact ⟨T.1, T.2.2.1, T.2.2.2.2.2.1 "new" rfl, (T.2.2.2.2.1 rfl).1⟩

/-! ### C7: zero-vector fallbacks of the embedding service -/

theorem enumFrom_snd_mem {α : Type} (l : List α) (n : ℕ) (p : ℕ × α)
    (h : p ∈ List.enumFrom n l) : p.2 ∈ l := by
  induction l generalizing n with
  | nil => cases h
  | cons a t ih =>
    rcases List.mem_cons.mp h with h1 | h1
    · rw [h1]
      exact List.mem_cons_self a t
    · exact List.mem_cons_of_mem a (ih (n + 1) h1)

theorem embedInputs_nil_of_blank (texts : List String)
    (h : ∀ t ∈ texts, pyNonBlank t = false) : embedInputs texts = [] := by
  have hfil : texts.enum.filter (fun it => pyNonBlank it.2) = [] := by
    rw [List.filter_eq_nil_iff]
    intro p hp
    rw [h p.2 (enumFrom_snd_mem texts 0 p hp)]
    exact Bool.false_ne_true
  rw [embedInputs, hfil]
  rfl

/-- C7: `get_embeddings_batch` on an all-blank (empty or whitespace-only)
input of length N returns N zero vectors of the configured dimension
without calling the provider; and on total provider failure it returns the
same-length all-zero output instead of raising. -/
theorem C7_embed_blank_and_failure_zero_vectors
    (provider : List String → Option (List Vec)) (texts : List String) :
    ((∀ t ∈ texts, pyNonBlank t = false) →
      get_embeddings_batch provider texts
        = (List.replicate texts.length zeroVec, false)) ∧
    (provider (embedInputs texts) = none →
      (get_embeddings_batch provider texts).1
        = List.replicate texts.length zeroVec) := by
  constructor
  · intro h
    simp only [get_embeddings_batch, embedInputs_nil_of_blank texts h,
      List.isEmpty_nil, if_true]
  · intro h
    by_cases he : (embedInputs texts).isEmpty = true
    · simp only [get_embeddings_batch, he, if_true]
    · simp only [get_embeddings_batch, he, if_false, Bool.false_eq_true, h]

/-- Witness for C7: an all-blank two-element input with a failing
provider. -/
theorem C7_embed_blank_and_failure_zero_vectors_witness :
    get_embeddings_batch (fun _ => none) ["", "  "]
      = (List.replicate 2 zeroVec, false) ∧
    (get_embeddings_batch (fun _ => none) ["", "  "]).1 = List.replicate 2 zeroVec :=
  ⟨(C7_embed_blank_and_failure_zero_vectors (fun _ => none) ["", "  "]).1 (by decide),
    (C7_embed_blank_and_failure_zero_vectors (fun _ => none) ["", "  "]).2 rfl⟩

/-! ### C8: the stats histogram accounts for every document -/

theorem sumCounts_bump (l : List (JVal × ℕ)) (k : JVal) :
    sumCounts (bump l k) = sumCounts l + 1 := by
  induction l with
  | nil => rfl
  | cons p rest ih =>
    obtain ⟨k1, n⟩ := p
    by_cases h : k1 = k
    · simp [bump, h, sumCounts]
      omega
    · simp only [bump, h, if_false]
      simp [sumCounts] at ih ⊢
      omega

theorem bucketCount_bump_self (l : List (JVal × ℕ)) (k : JVal) :
    bucketCount (bump l k) k = bucketCount l k + 1 := by
  induction l with
  | nil => simp [bucketCount, bump]
  | cons p rest ih =>
    obtain ⟨k1, n⟩ := p
    by_cases h : k1 = k
    · simp [bucketCount, bump, h]
      omega
    · simp only [bump, h, if_false]
      simp [bucketCount, h] at ih ⊢
      omega

theorem bucketCount_bump_ne (l : List (JVal × ℕ)) (k k2 : JVal) (h : k2 ≠ k) :
    bucketCount (bump l k) k2 = bucketCount l k2 := by
  have hkk : ¬(k = k2) := fun hh => h hh.symm
  induction l with
  | nil => simp [bucketCount, bump, hkk]
  | cons p rest ih =>
    obtain ⟨k1, n⟩ := p
    by_cases h1 : k1 = k
    · subst h1
      simp [bucketCount, bump, hkk]
    · simp only [bump, h1, if_false]
      by_cases h2 : k1 = k2
      · simp [bucketCount, h2] at ih ⊢
        omega
      · simp [bucketCount, h2] at ih ⊢
        exact ih

theorem latestOk_str (lv : JVal) (hl : latestOk (some lv) = true) :
    ∃ s, lv = JVal.str s := by
  cases lv with
  | str s => exact ⟨s, rfl⟩
  | num x => exact absurd hl (by simp [latestOk])
  | strList ll => exact absurd hl (by simp [latestOk])
  | vec vv => exact absurd hl (by simp [latestOk])

theorem updStep_safe (d : JDoc) (cats1 : List (JVal × ℕ)) (latest : Option JVal)
    (hsafe : updSafe d = true) (hl : latestOk latest = true) :
    (updStep d cats1 latest).1 = cats1 ∧
    latestOk (updStep d cats1 latest).2 = true := by
  rcases hu : dGet d "updated_at" with _ | u
  · simp only [updStep, hu]
    exact ⟨trivial, hl⟩
  · cases u with
    | str us =>
      simp only [updStep, hu]
      by_cases ht : pyTruthy (JVal.str us) = true
      · rw [if_pos ht]
        cases hlat : latest with
        | none => exact ⟨rfl, rfl⟩
        | some lv =>
          rw [hlat] at hl
          obtain ⟨ls, hls⟩ := latestOk_str lv hl
          subst hls
          show (if (!pyTruthy (JVal.str ls)) = true then (cats1, some (JVal.str us))
            else
              match pyGt (JVal.str us) (JVal.str ls) with
              | some true => (cats1, some (JVal.str us))
              | some false => (cats1, some (JVal.str ls))
              | none => (bump cats1 uncategorized, some (JVal.str ls))).1 = cats1 ∧
            latestOk (if (!pyTruthy (JVal.str ls)) = true
              then (cats1, some (JVal.str us))
            else
              match pyGt (JVal.str us) (JVal.str ls) with
              | some true => (cats1, some (JVal.str us))
              | some false => (cats1, some (JVal.str ls))
              | none => (bump cats1 uncategorized, some (JVal.str ls))).2 = true
          by_cases htl : pyTruthy (JVal.str ls) = true
          · rw [if_neg (by simp [htl])]
            rw [show pyGt (JVal.str us) (JVal.str ls)
              = some (charsLt ls.data us.data) from rfl]
            cases hgt : charsLt ls.data us.data with
            | false => exact ⟨rfl, hl⟩
            | true => exact ⟨rfl, rfl⟩
          · have hf : pyTruthy (JVal.str ls) = false := by
              cases hx : pyTruthy (JVal.str ls)
              · rfl
              · exact absurd hx htl
            rw [if_pos (by rw [hf]; rfl)]
            exact ⟨rfl, rfl⟩
      · rw [if_neg ht]
        exact ⟨rfl, hl⟩
    | num x =>
      simp only [updStep, hu]
      rw [updSafe, hu] at hsafe
      change (!pyTruthy (JVal.num x)) = true at hsafe
      have hf : pyTruthy (JVal.num x) = false := by
        cases hx : pyTruthy (JVal.num x)
        · rfl
        · rw [hx] at hsafe
          exact absurd hsafe (by decide)
      rw [if_neg (by rw [hf]; exact Bool.false_ne_true)]
      exact ⟨rfl, hl⟩
    | strList ll =>
      simp only [updStep, hu]
      rw [updSafe, hu] at hsafe
      change (!pyTruthy (JVal.strList ll)) = true at hsafe
      have hf : pyTruthy (JVal.strList ll) = false := by
        cases hx : pyTruthy (JVal.strList ll)
        · rfl
        · rw [hx] at hsafe
          exact absurd hsafe (by decide)
      rw [if_neg (by rw [hf]; exact Bool.false_ne_true)]
      exact ⟨rfl, hl⟩
    | vec vv =>
      simp only [updStep, hu]
      rw [updSafe, hu] at hsafe
      change (!pyTruthy (JVal.vec vv)) = true at hsafe
      have hf : pyTruthy (JVal.vec vv) = false := by
        cases hx : pyTruthy (JVal.vec vv)
        · rfl
        · rw [hx] at hsafe
          exact absurd hsafe (by decide)
      rw [if_neg (by rw [hf]; exact Bool.false_ne_true)]
      exact ⟨rfl, hl⟩

theorem statsStep_cats (d : JDoc) (cats : List (JVal × ℕ)) (latest : Option JVal)
    (hsafe : updSafe d = true) (hl : latestOk latest = true) :
    (statsStep (cats, latest) d).1 = bump cats (effCat d) ∧
    latestOk (statsStep (cats, latest) d).2 = true := by
  unfold statsStep
  rcases hc : dGet d "category" with _ | cv
  · have he : effCat d = uncategorized := by rw [effCat, hc]
    rw [he]
    simp only [hc, Option.getD_none]
    rw [if_pos (by rfl)]
    exact updStep_safe d _ latest hsafe hl
  · cases cv with
    | str c =>
      have he : effCat d = JVal.str c := by rw [effCat, hc]
      rw [he]
      simp only [hc, Option.getD_some]
      rw [if_pos (by rfl)]
      exact updStep_safe d _ latest hsafe hl
    | num x =>
      have he : effCat d = JVal.num x := by rw [effCat, hc]
      rw [he]
      simp only [hc, Option.getD_some]
      rw [if_pos (by rfl)]
      exact updStep_safe d _ latest hsafe hl
    | strList ll =>
      have he : effCat d = uncategorized := by rw [effCat, hc]
      rw [he]
      simp only [hc, Option.getD_some]
      rw [if_neg (by simp [hashable])]
      exact ⟨rfl, hl⟩
    | vec vv =>
      have he : effCat d = uncategorized := by rw [effCat, hc]
      rw [he]
      simp only [hc, Option.getD_some]
      rw [if_neg (by simp [hashable])]
      exact ⟨rfl, hl⟩

theorem statsFold_counts (kds : List (String × JDoc)) (k : JVal) :
    ∀ (cats : List (JVal × ℕ)) (latest : Option JVal),
    (∀ kd ∈ kds, updSafe kd.2 = true) → latestOk latest = true →
    sumCounts (kds.foldl (fun acc kd => statsStep acc kd.2) (cats, latest)).1
      = sumCounts cats + kds.length ∧
    bucketCount (kds.foldl (fun acc kd => statsStep acc kd.2) (cats, latest)).1 k
      = bucketCount cats k + kds.countP (fun kd => decide (effCat kd.2 = k)) := by
  induction kds with
  | nil =>
    intro cats latest hs hl
    constructor
    · simp [List.foldl_nil]
    · simp [List.foldl_nil, List.countP_nil]
  | cons kd rest ih =>
    intro cats latest hs hl
    have hstep := statsStep_cats kd.2 cats latest (hs kd (List.mem_cons_self _ _)) hl
    have hacc : statsStep (cats, latest) kd.2
        = (bump cats (effCat kd.2), (statsStep (cats, latest) kd.2).2) := by
      rw [← hstep.1]
    rw [List.foldl_cons, hacc]
    have hrest := ih (bump cats (effCat kd.2)) ((statsStep (cats, latest) kd.2).2)
      (fun kd2 hm => hs kd2 (List.mem_cons_of_mem _ hm)) hstep.2
    constructor
    · rw [hrest.1, sumCounts_bump]
      simp only [List.length_cons]
      omega
    · rw [hrest.2]
      by_cases hk : effCat kd.2 = k
      · have hdec : (decide (effCat kd.2 = k)) = true := decide_eq_true hk
        rw [hk, bucketCount_bump_self]
        simp only [List.countP_cons, hdec, if_true]
        omega
      · have hdec : (decide (effCat kd.2 = k)) = false := decide_eq_false hk
        rw [bucketCount_bump_ne cats (effCat kd.2) k (fun hh => hk hh.symm)]
        simp only [List.countP_cons, hdec, Bool.false_eq_true, if_false]
        omega

/-- C8 (amended): provided every document's `updated_at` projection is a
string, missing, or falsy (so the stats loop raises no `TypeError` while
comparing timestamps), `_calculate_stats` counts every enumerated
document: the histogram sum equals the total document count, and the
sentinel "未分类" (uncategorized) bucket holds exactly the documents whose
category projection is missing, unhashable, or the sentinel itself.
Without that proviso a document can be counted twice (see the
counterexample). -/
theorem C8_stats_histogram (now gid : String) (s : RS)
    (hsafe : ∀ kd ∈ groupDocs gid s, updSafe kd.2 = true) :
    statsTotalOf (_calculate_stats now none gid s) = (groupDocs gid s).length ∧
    sumCounts (statsCategoriesOf (_calculate_stats now none gid s))
      = (groupDocs gid s).length ∧
    bucketCount (statsCategoriesOf (_calculate_stats now none gid s)) uncategorized
      = (groupDocs gid s).countP (fun kd => decide (effCat kd.2 = uncategorized)) := by
  have H := statsFold_counts (groupDocs gid s) uncategorized [] none hsafe rfl
  refine ⟨rfl, ?_, ?_⟩
  · show sumCounts
        ((groupDocs gid s).foldl (fun acc kd => statsStep acc kd.2) ([], none)).1
      = (groupDocs gid s).length
    rw [H.1]
    simp [sumCounts]
  · show bucketCount
        ((groupDocs gid s).foldl (fun acc kd => statsStep acc kd.2) ([], none)).1
        uncategorized
      = (groupDocs gid s).countP (fun kd => decide (effCat kd.2 = uncategorized))
    rw [H.2]
    simp [bucketCount]

/-- Witness for C8 on a concrete group with a safe and a sentinel-bucket
document. -/
theorem C8_stats_histogram_witness :
    statsTotalOf (_calculate_stats "t" none "g"
      ⟨[("gk1", [("category", JVal.str "A"), ("updated_at", JVal.str "2024-01-01")]),
        ("gk2", [("updated_at", JVal.str "2024-02-01")])], [], [], ["g"]⟩)
      = (groupDocs "g"
      ⟨[("gk1", [("category", JVal.str "A"), ("updated_at", JVal.str "2024-01-01")]),
        ("gk2", [("updated_at", JVal.str "2024-02-01")])], [], [], ["g"]⟩).length ∧
    sumCounts (statsCategoriesOf (_calculate_stats "t" none "g"
      ⟨[("gk1", [("category", JVal.str "A"), ("updated_at", JVal.str "2024-01-01")]),
        ("gk2", [("updated_at", JVal.str "2024-02-01")])], [], [], ["g"]⟩))
      = (groupDocs "g"
      ⟨[("gk1", [("category", JVal.str "A"), ("updated_at", JVal.str "2024-01-01")]),
        ("gk2", [("updated_at", JVal.str "2024-02-01")])], [], [], ["g"]⟩).length ∧
    bucketCount (statsCategoriesOf (_calculate_stats "t" none "g"
      ⟨[("gk1", [("category", JVal.str "A"), ("updated_at", JVal.str "2024-01-01")]),
        ("gk2", [("updated_at", JVal.str "2024-02-01")])], [], [], ["g"]⟩)) uncategorized
      = (groupDocs "g"
      ⟨[("gk1", [("category", JVal.str "A"), ("updated_at", JVal.str "2024-01-01")]),
        ("gk2", [("updated_at", JVal.str "2024-02-01")])], [], [], ["g"]⟩).countP
        (fun kd => decide (effCat kd.2 = uncategorized)) :=
  C8_stats_histogram "t" "g"
    ⟨[("gk1", [("category", JVal.str "A"), ("updated_at", JVal.str "2024-01-01")]),
      ("gk2", [("updated_at", JVal.str "2024-02-01")])], [], [], ["g"]⟩ (by decide)

/-- C8 counterexample: a document with a valid category but a truthy
non-string `updated_at` projection raises `TypeError` in the comparison
with the running latest value, and the handler counts that document a
second time under "未分类": the histogram sums to 3 over 2 documents. -/
theorem C8_double_count_counterexample :
    _calculate_stats "t" none "g"
      ⟨[("gk1", [("category", JVal.str "A"), ("updated_at", JVal.str "2024-01-01")]),
        ("gk2", [("category", JVal.str "B"), ("updated_at", JVal.strList ["x"])])],
        [], [], ["g"]⟩
      = .stats ⟨2, [(JVal.str "A", 1), (JVal.str "B", 1), (JVal.str "未分类", 1)],
          "active", some (JVal.str "2024-01-01"), "t"⟩ ∧
    sumCounts (statsCategoriesOf (_calculate_stats "t" none "g"
      ⟨[("gk1", [("category", JVal.str "A"), ("updated_at", JVal.str "2024-01-01")]),
        ("gk2", [("category", JVal.str "B"), ("updated_at", JVal.strList ["x"])])],
        [], [], ["g"]⟩))
      ≠ statsTotalOf (_calculate_stats "t" none "g"
      ⟨[("gk1", [("category", JVal.str "A"), ("updated_at", JVal.str "2024-01-01")]),
        ("gk2", [("category", JVal.str "B"), ("updated_at", JVal.strList ["x"])])],
        [], [], ["g"]⟩) := by
  refine ⟨by decide, by decide⟩

/-! ### C1: the vector-search contract -/

theorem rhe4_mono (x y : Int) (h : x ≤ y) : rhe4 x ≤ rhe4 y := by
  unfold rhe4
  split_ifs <;> omega

theorem round4_mono (x y : Fx) (h : x ≤ y) : round4 x ≤ round4 y := by
  have h2 := rhe4_mono x y h
  unfold round4
  exact mul_le_mul_of_nonneg_left h2 (by norm_num)

theorem mem_insAsc {α : Type} (le : α → α → Bool) (a x : α) (l : List α) :
    x ∈ insAsc le a l ↔ x = a ∨ x ∈ l := by
  induction l with
  | nil => simp [insAsc]
  | cons b bs ih =>
    by_cases h : le a b = true
    · simp [insAsc, h, List.mem_cons]
    · simp only [insAsc, h, Bool.false_eq_true, if_false, List.mem_cons, ih]
      tauto

theorem pairwise_insAsc {α : Type} (le : α → α → Bool)
    (htot : ∀ x y, le x y = true ∨ le y x = true)
    (htrans : ∀ x y z, le x y = true → le y z = true → le x z = true)
    (a : α) (l : List α) (hp : List.Pairwise (fun x y => le x y = true) l) :
    List.Pairwise (fun x y => le x y = true) (insAsc le a l) := by
  induction l with
  | nil => simp [insAsc]
  | cons b bs ih =>
    rcases hp with _ | ⟨hb, hbs⟩
    by_cases h : le a b = true
    · simp only [insAsc, h, if_true]
      refine List.Pairwise.cons ?_ (List.Pairwise.cons hb hbs)
      intro x hx
      rcases List.mem_cons.mp hx with rfl | hx2
      · exact h
      · exact htrans a b x h (hb x hx2)
    · simp only [insAsc, h, Bool.false_eq_true, if_false]
      refine List.Pairwise.cons ?_ (ih hbs)
      intro x hx
      rcases (mem_insAsc le a x bs).mp hx with rfl | hx2
      · rcases htot x b with h1 | h1
        · exact absurd h1 h
        · exact h1
      · exact hb x hx2

theorem pairwise_sortAsc {α : Type} (le : α → α → Bool)
    (htot : ∀ x y, le x y = true ∨ le y x = true)
    (htrans : ∀ x y z, le x y = true → le y z = true → le x z = true)
    (l : List α) :
    List.Pairwise (fun x y => le x y = true) (sortAsc le l) := by
  induction l with
  | nil => exact List.Pairwise.nil
  | cons a as ih => exact pairwise_insAsc le htot htrans a (sortAsc le as) ih

theorem parseFieldsAux_sim (l1 : List (String × JVal)) (q : Fx) :
    ∀ (acc : List (String × JVal)) (sim : Option Fx),
    (∀ nv ∈ l1, nv.1 ≠ "__vector_score") →
    (parseFieldsAux (l1 ++ [("__vector_score", JVal.num q)]) acc sim).2
      = some (fxOne - q) := by
  induction l1 with
  | nil =>
    intro acc sim hn
    rfl
  | cons nv rest ih =>
    intro acc sim hn
    obtain ⟨n, v⟩ := nv
    have hne : n ≠ "__vector_score" := hn (n, v) (List.mem_cons_self _ _)
    simp only [List.cons_append, parseFieldsAux, hne, if_false]
    exact ih _ _ (fun x hx => hn x (List.mem_cons_of_mem _ hx))

theorem projFields_no_score (d : JDoc) :
    ∀ nv ∈ projFields d, nv.1 ≠ "__vector_score" := by
  intro nv hmem
  rcases List.mem_filterMap.mp hmem with ⟨n, hn, hf⟩
  have hn2 : n ≠ "__vector_score" := by fin_cases hn <;> decide
  rcases hd : dGet d n with _ | v
  · rw [hd] at hf
    cases hf
  · rw [hd] at hf
    have hnv : nv = (n, v) := by simpa using hf.symm
    rw [hnv]
    exact hn2

theorem simScore_parsed_item (kdd : String × JDoc × Fx) :
    simScore (parseOneResult (knnRawItem kdd)) = round4 (fxOne - kdd.2.2) := by
  rw [simScore, parseOneResult, knnRawItem]
  rw [parseFieldsAux_sim (projFields kdd.2.1) kdd.2.2 [] none
    (projFields_no_score kdd.2.1)]
  rfl

theorem pairwise_parsed_of_sorted (top : List (String × JDoc × Fx))
    (hp : List.Pairwise (fun a b => (decide (a.2.2 ≤ b.2.2)) = true) top) :
    List.Pairwise (fun a b => simScore b ≤ simScore a)
      (parse_vector_search_result (top.map knnRawItem)) := by
  rw [parse_vector_search_result, List.map_map]
  refine List.Pairwise.map _ ?_ hp
  intro a b hle
  simp only [Function.comp_apply]
  rw [simScore_parsed_item a, simScore_parsed_item b]
  exact round4_mono (fxOne - b.2.2) (fxOne - a.2.2)
    (sub_le_sub_left (of_decide_eq_true hle) fxOne)

theorem knnSearch_spec (dist : Vec → Vec → Fx) (gid : String) (qv : Vec)
    (limit : ℕ) (category : Option String) (min_sim : Fx)
    (docs : List (String × JDoc)) :
    (knnSearchResults dist gid qv limit category min_sim docs).length ≤ limit ∧
    List.Pairwise (fun a b => simScore b ≤ simScore a)
      (knnSearchResults dist gid qv limit category min_sim docs) ∧
    (0 < min_sim → ∀ r ∈ knnSearchResults dist gid qv limit category min_sim docs,
      min_sim ≤ simScore r) := by
  have htot : ∀ x y : String × JDoc × Fx,
      (decide (x.2.2 ≤ y.2.2)) = true ∨ (decide (y.2.2 ≤ x.2.2)) = true := by
    intro x y
    rcases Int.le_total x.2.2 y.2.2 with h | h
    · exact Or.inl (decide_eq_true h)
    · exact Or.inr (decide_eq_true h)
  have htrans : ∀ x y z : String × JDoc × Fx, (decide (x.2.2 ≤ y.2.2)) = true →
      (decide (y.2.2 ≤ z.2.2)) = true → (decide (x.2.2 ≤ z.2.2)) = true := by
    intro x y z h1 h2
    exact decide_eq_true (le_trans (of_decide_eq_true h1) (of_decide_eq_true h2))
  simp only [knnSearchResults]
  have htopPW : List.Pairwise
      (fun x y : String × JDoc × Fx => (decide (x.2.2 ≤ y.2.2)) = true)
      ((sortAsc (fun a b => decide (a.2.2 ≤ b.2.2))
        (knnCandidates dist gid qv category docs)).take limit) :=
    List.Pairwise.sublist (List.take_sublist _ _) (pairwise_sortAsc _ htot htrans _)
  have hPW := pairwise_parsed_of_sorted _ htopPW
  have hlen : (parse_vector_search_result
      (((sortAsc (fun a b => decide (a.2.2 ≤ b.2.2))
        (knnCandidates dist gid qv category docs)).take limit).map
        knnRawItem)).length ≤ limit := by
    rw [parse_vector_search_result, List.length_map, List.length_map]
    exact List.length_take_le _ _
  by_cases hmin : 0 < min_sim
  · rw [if_pos hmin]
    refine ⟨le_trans (List.length_filter_le _ _) hlen,
      List.Pairwise.filter _ hPW, ?_⟩
    intro _ r hr
    exact of_decide_eq_true ((List.mem_filter.mp hr).2)
  · rw [if_neg hmin]
    exact ⟨hlen, hPW, fun hc => absurd hc hmin⟩

/-- C1 (amended): `vector_search_questions` returns at most `limit`
results and the sequence is ordered by non-increasing similarity score;
when `min_similarity > 0`, no returned result has a similarity score below
`min_similarity`.  At `min_similarity ≤ 0` (the handlers' default 0) the
filter is skipped, so results below the threshold — negative similarity
scores — can be returned (see the counterexample). -/
theorem C1_vector_search_contract (dist : Vec → Vec → Fx) (gid : String)
    (query_vector : Vec) (limit : ℕ) (category : Option String)
    (min_similarity : Fx) (s : RS) :
    (vector_search_questions dist gid query_vector limit category
      min_similarity s).1.length ≤ limit ∧
    List.Pairwise (fun a b => simScore b ≤ simScore a)
      (vector_search_questions dist gid query_vector limit category
        min_similarity s).1 ∧
    (0 < min_similarity →
      ∀ r ∈ (vector_search_questions dist gid query_vector limit category
        min_similarity s).1, min_similarity ≤ simScore r) :=
  knnSearch_spec dist gid query_vector limit category min_similarity
    (if check_index_exists gid s then s else (create_hotspot_index gid false s).2).docs

/-- Witness for C1 at a concrete store and a positive threshold. -/
theorem C1_vector_search_contract_witness :
    (vector_search_questions (fun _ _ => 20000000) "g" [0] 3 none 50000000
      ⟨[("gq1", [("question_id", JVal.str "q1"), ("question", JVal.str "how"),
        ("category", JVal.str "c"), ("query_vector", JVal.vec [0])])],
        [], [], ["g"]⟩).1.length ≤ 3 ∧
    List.Pairwise (fun a b => simScore b ≤ simScore a)
      (vector_search_questions (fun _ _ => 20000000) "g" [0] 3 none 50000000
      ⟨[("gq1", [("question_id", JVal.str "q1"), ("question", JVal.str "how"),
        ("category", JVal.str "c"), ("query_vector", JVal.vec [0])])],
        [], [], ["g"]⟩).1 ∧
    ((0 : Fx) < 50000000 →
      ∀ r ∈ (vector_search_questions (fun _ _ => 20000000) "g" [0] 3 none 50000000
      ⟨[("gq1", [("question_id", JVal.str "q1"), ("question", JVal.str "how"),
        ("category", JVal.str "c"), ("query_vector", JVal.vec [0])])],
        [], [], ["g"]⟩).1, (50000000 : Fx) ≤ simScore r) :=
  C1_vector_search_contract (fun _ _ => 20000000) "g" [0] 3 none 50000000
    ⟨[("gq1", [("question_id", JVal.str "q1"), ("question", JVal.str "how"),
      ("category", JVal.str "c"), ("query_vector", JVal.vec [0])])],
      [], [], ["g"]⟩

/-- C1 counterexample: at the default threshold `min_similarity = 0` the
similarity filter is skipped entirely, and a stored document at cosine
distance 1.5 is returned with similarity score -0.5, i.e. a result whose
similarity score is below `min_similarity`. -/
theorem C1_negative_similarity_counterexample :
    ((vector_search_questions (fun _ _ => 150000000) "g" [0] 3 none 0
      ⟨[("gq1", [("question_id", JVal.str "q1"), ("question", JVal.str "how"),
        ("category", JVal.str "c"), ("query_vector", JVal.vec [0])])],
        [], [], ["g"]⟩).1.map (fun r => r.similarity_score))
      = [some (-50000000)] ∧
    ((-50000000 : Fx) < 0) := by
  refine ⟨by decide, by decide⟩

/-! ### C5: the sequential fallback reproduces the batched accounting -/

theorem fallback_eq_batched_aux (writeOk : String → Bool) (gid : String)
    (qd : List JDoc) :
    ∀ (i : ℕ) (s : RS),
    (_fallback_store_individual writeOk gid i qd s).1
      = (writeValids writeOk gid (batchValidate i qd).1 s).1 ∧
    (_fallback_store_individual writeOk gid i qd s).2.2
      = (writeValids writeOk gid (batchValidate i qd).1 s).2.2 ∧
    ((_fallback_store_individual writeOk gid i qd s).2.1.map
        (fun f => (f.index, f.question_id))).Perm
      (((batchValidate i qd).2
        ++ (writeValids writeOk gid (batchValidate i qd).1 s).2.1).map
        (fun f => (f.index, f.question_id))) := by
  induction qd with
  | nil =>
    intro i s
    exact ⟨rfl, rfl, by simp [batchValidate, writeValids, _fallback_store_individual]⟩
  | cons d rest ih =>
    intro i s
    by_cases hv : hasRequiredKeys d = true
    · have hq : ∃ qv, dGet d "question_id" = some qv := by
        simp only [hasRequiredKeys, Bool.and_eq_true, dHasKey] at hv
        exact Option.isSome_iff_exists.mp hv.2
      obtain ⟨qv, hq⟩ := hq
      have hqid : qidOrUnknown d i = qv := by rw [qidOrUnknown, hq]; rfl
      by_cases hw : writeOk (gid ++ pyStr qv) = true
      · have hstore : store_hotspot_question writeOk (pyStr qv) d gid s
            = (true, { s with docs := alSet s.docs (gid ++ pyStr qv) d }) := by
          simp only [store_hotspot_question, hv, Bool.not_true, Bool.false_eq_true,
            if_false, hw, if_true]
        have H := ih (i + 1) { s with docs := alSet s.docs (gid ++ pyStr qv) d }
        refine ⟨?_, ?_, ?_⟩
        · simp only [_fallback_store_individual, hq, hstore, batchValidate, hv,
            if_true, writeValids, hqid, hw]
          simpa using H.1
        · simp only [_fallback_store_individual, hq, hstore, batchValidate, hv,
            if_true, writeValids, hqid, hw]
          simpa using H.2.1
        · simp only [_fallback_store_individual, hq, hstore, batchValidate, hv,
            if_true, writeValids, hqid, hw]
          simpa using H.2.2
      · have hstore : store_hotspot_question writeOk (pyStr qv) d gid s
            = (false, s) := by
          simp only [store_hotspot_question, hv, Bool.not_true, Bool.false_eq_true,
            if_false, hw, if_false]
        have H := ih (i + 1) s
        refine ⟨?_, ?_, ?_⟩
        · simp only [_fallback_store_individual, hq, hstore, batchValidate, hv,
            if_true, writeValids, hqid, hw]
          simpa using H.1
        · simp only [_fallback_store_individual, hq, hstore, batchValidate, hv,
            if_true, writeValids, hqid, hw]
          simpa using H.2.1
        · simp only [_fallback_store_individual, hq, hstore, batchValidate, hv,
            if_true, writeValids, hqid, hw, Bool.false_eq_true, if_false]
          simp only [List.map_cons, List.map_append] at H ⊢
          refine ((H.2.2.cons (i, qv)).trans ?_)
          have hmid := @List.perm_middle (ℕ × JVal) ((i : ℕ), qv)
            ((batchValidate (i + 1) rest).2.map (fun f => (f.index, f.question_id)))
            ((writeValids writeOk gid (batchValidate (i + 1) rest).1 s).2.1.map
              (fun f => (f.index, f.question_id)))
          exact hmid.symm
    · have hvf : hasRequiredKeys d = false := by
        cases hx : hasRequiredKeys d
        · rfl
        · exact absurd hx hv
      rcases hq : dGet d "question_id" with _ | qv
      · have hqid : qidOrUnknown d i = .str ("unknown_" ++ toString i) := by
          rw [qidOrUnknown, hq]; rfl
        have H := ih (i + 1) s
        refine ⟨?_, ?_, ?_⟩
        · simp only [_fallback_store_individual, hq, batchValidate, hvf,
            Bool.false_eq_true, if_false]
          simpa using H.1
        · simp only [_fallback_store_individual, hq, batchValidate, hvf,
            Bool.false_eq_true, if_false]
          simpa using H.2.1
        · simp only [_fallback_store_individual, hq, batchValidate, hvf,
            Bool.false_eq_true, if_false, hqid, List.map_cons, List.cons_append]
          simp only [List.map_cons] at H ⊢
          exact (H.2.2.cons _)
      · have hqid : qidOrUnknown d i = qv := by rw [qidOrUnknown, hq]; rfl
        have hstore : store_hotspot_question writeOk (pyStr qv) d gid s
            = (false, s) := by
          simp only [store_hotspot_question, hvf, Bool.not_false, if_true]
        have H := ih (i + 1) s
        refine ⟨?_, ?_, ?_⟩
        · simp only [_fallback_store_individual, hq, hstore, batchValidate, hvf,
            Bool.false_eq_true, if_false]
          simpa using H.1
        · simp only [_fallback_store_individual, hq, hstore, batchValidate, hvf,
            Bool.false_eq_true, if_false]
          simpa using H.2.1
        · simp only [_fallback_store_individual, hq, hstore, batchValidate, hvf,
            Bool.false_eq_true, if_false, hqid, List.map_cons, List.cons_append]
          simp only [List.map_cons] at H ⊢
          exact (H.2.2.cons _)

/-- C5: for every item list, write oracle, group and store state, the
sequential fallback (`_fallback_store_individual`) produces the same
success count, the same failure count, the same multiset of failed
(index, question_id) pairs, and the same resulting document store as the
batched path of `store_hotspot_questions_batch` would have produced —
every originally-valid item is submitted through `store_hotspot_question`
with the same key and payload.  (The per-item failure *reason strings*
differ between the two paths by construction: e.g. "数据格式不符合要求"
versus "单个存储失败".) -/
theorem C5_fallback_matches_batched (writeOk : String → Bool) (qd : List JDoc)
    (gid : String) (s : RS) :
    (_fallback_store_individual writeOk gid 0 qd s).1
      = (batchedStorePath writeOk qd gid s).1 ∧
    (_fallback_store_individual writeOk gid 0 qd s).2.1.length
      = (batchedStorePath writeOk qd gid s).2.1.length ∧
    ((_fallback_store_individual writeOk gid 0 qd s).2.1.map
        (fun f => (f.index, f.question_id))).Perm
      ((batchedStorePath writeOk qd gid s).2.1.map
        (fun f => (f.index, f.question_id))) ∧
    (_fallback_store_individual writeOk gid 0 qd s).2.2
      = (batchedStorePath writeOk qd gid s).2.2 := by
  have H := fallback_eq_batched_aux writeOk gid qd 0 s
  simp only [batchedStorePath]
  refine ⟨H.1, ?_, H.2.2, H.2.1⟩
  have hl := H.2.2.length_eq
  simpa using hl
